import Mathlib

/-!
Shallow embedding of the MCVK render-instruction assembly and dynamic
pipeline compilation subsystem (src/native/src/vulkan/{insn_assembler.rs,
dynamic_shader.rs, commands.rs, sandbox.rs, sandbox_jni/client_arrays.rs}).

Modelling conventions:
* Rust `f32` scalars and matrix entries are modelled as exact rationals
  (`ℚ`); the only idealisation is that casts such as `v as f32` do not
  round in the model.
* Machine integers that never overflow in the relevant ranges (`u8`
  strides, `u32` counts, `usize` indices) are modelled as `Nat`.
* Fallible operations (Rust `panic!`, out-of-bounds indexing, `unwrap`,
  `todo!`, failed `assert_eq!`) return `Option`, with `none` standing for
  a panic.
* `tracing::warn!` / `tracing::info!` side effects are modelled as an
  accumulated list of `LogMsg` values.
-/

namespace MCVK

/-! ## Scalar data types (sandbox.rs `PointerDataType`, insn_assembler's `GLDataType`)

`GLDataType` is referenced by insn_assembler.rs but its declaration is in a
repository revision that is not under src/.  Modelled from the spec: the
spec fixes "`data_type` (one of 8 numeric kinds: unsigned/signed 8/16/32-bit
integers, 32/64-bit float)", identical to `PointerDataType` in sandbox.rs,
whose `size()` (client_arrays.rs) gives the byte sizes used below. -/

inductive GLDataType where
  | u8 | i8 | u16 | i16 | u32 | i32 | f32 | f64
  deriving DecidableEq, Repr

/-- Byte size of one scalar (client_arrays.rs `PointerDataType::size`). -/
def GLDataType.size : GLDataType → Nat
  | .u8 => 1
  | .i8 => 1
  | .u16 => 2
  | .i16 => 2
  | .u32 => 4
  | .i32 => 4
  | .f32 => 4
  | .f64 => 8

/-- `PointerDataType` (sandbox.rs) has exactly the same variants. -/
abbrev PointerDataType := GLDataType

/-- Maximum representable value of an integer type, as used by
`convert_norm!` (`<$from>::MAX as f32`).  Float types never reach that
macro; they are given value 1 here (unused). -/
def GLDataType.maxValue : GLDataType → ℚ
  | .u8 => 255
  | .i8 => 127
  | .u16 => 65535
  | .i16 => 32767
  | .u32 => 4294967295
  | .i32 => 2147483647
  | .f32 => 1
  | .f64 => 1

/-- Little-endian decoding of a byte list to an unsigned integer. -/
def decodeLE : List Nat → Nat
  | [] => 0
  | b :: rest => b + 256 * decodeLE rest

/-- Two's-complement reinterpretation of an unsigned `bits`-bit value. -/
def toSigned (bits : Nat) (n : Nat) : Int :=
  if n < 2 ^ (bits - 1) then (n : Int) else (n : Int) - 2 ^ bits

/-- Value of one scalar of an integer type, decoded from its bytes
(x86 little-endian, as reinterpreted by `align_to::<$from>`). -/
def GLDataType.decodeValue (t : GLDataType) (bytes : List Nat) : ℚ :=
  match t with
  | .u8 => (decodeLE bytes : ℚ)
  | .u16 => (decodeLE bytes : ℚ)
  | .u32 => (decodeLE bytes : ℚ)
  | .i8 => ((toSigned 8 (decodeLE bytes) : Int) : ℚ)
  | .i16 => ((toSigned 16 (decodeLE bytes) : Int) : ℚ)
  | .i32 => ((toSigned 32 (decodeLE bytes) : Int) : ℚ)
  | .f32 => 0
  | .f64 => 0

/-! ## Vectors and 4x4 matrices (nalgebra `Vec3`, `Vec4`, `TMat4<f32>`) -/

structure Vec3 where
  x : ℚ
  y : ℚ
  z : ℚ
  deriving DecidableEq, Repr

structure Vec4 where
  x : ℚ
  y : ℚ
  z : ℚ
  w : ℚ
  deriving DecidableEq, Repr

abbrev Mat4 := Fin 4 → Fin 4 → ℚ

namespace Mat4

def id : Mat4 := fun i j => if i = j then 1 else 0

/-- Row-by-column product of two 4x4 matrices. -/
def mul (a b : Mat4) : Mat4 := fun i j =>
  a i 0 * b 0 j + a i 1 * b 1 j + a i 2 * b 2 j + a i 3 * b 3 j

end Mat4

/-- Component `i` of a `Vec3` viewed as the first three entries of a
homogeneous column (component 3 is 0). -/
def Vec3.comp (v : Vec3) : Fin 4 → ℚ
  | 0 => v.x
  | 1 => v.y
  | 2 => v.z
  | 3 => 0

/-- Homogeneous translation matrix `T(v)`. -/
def translationMatrix (v : Vec3) : Mat4 := fun i j =>
  if i = j then 1 else if j = 3 then v.comp i else 0

/-- Homogeneous non-uniform scaling matrix `S(v)`. -/
def scalingMatrix (v : Vec3) : Mat4 := fun i j =>
  if i = j then (if i = 3 then 1 else v.comp i) else 0

/-- nalgebra `Matrix4::append_translation_mut(shift)`: adds
`shift[i] * row_3` to row `i` for `i < 3`; equal to `T(shift) * m`. -/
def appendTranslation (m : Mat4) (v : Vec3) : Mat4 := fun i j =>
  if i.val < 3 then m i j + v.comp i * m 3 j else m i j

/-- nalgebra `Matrix4::append_nonuniform_scaling_mut(scaling)`: scales row
`i` by `scaling[i]` for `i < 3`; equal to `S(scaling) * m`. -/
def appendScaling (m : Mat4) (v : Vec3) : Mat4 := fun i j =>
  if i.val < 3 then v.comp i * m i j else m i j

/-- `OrthoData` (sandbox.rs). -/
structure OrthoData where
  left : ℚ
  right : ℚ
  bottom : ℚ
  top : ℚ
  z_near : ℚ
  z_far : ℚ
  deriving DecidableEq, Repr

/-- nalgebra `Orthographic3::new(l,r,b,t,znear,zfar).as_matrix()` (OpenGL
convention).  `ℚ` division by zero yields 0 where nalgebra would divide by
zero. -/
def orthoMatrix (p : OrthoData) : Mat4 := fun i j =>
  match i, j with
  | 0, 0 => 2 / (p.right - p.left)
  | 1, 1 => 2 / (p.top - p.bottom)
  | 2, 2 => -2 / (p.z_far - p.z_near)
  | 0, 3 => -(p.right + p.left) / (p.right - p.left)
  | 1, 3 => -(p.top + p.bottom) / (p.top - p.bottom)
  | 2, 3 => -(p.z_far + p.z_near) / (p.z_far - p.z_near)
  | 3, 3 => 1
  | _, _ => 0

/-- The rotation matrix nalgebra computes from an axis and an angle via
`UnitQuaternion::new(axis.normalize() * angle).to_rotation_matrix()`.
It involves transcendental functions (sin/cos, sqrt) on `f32` and is kept
as a parameter of the model; every theorem quantifies over it. -/
abbrev RotationFn := Vec3 → ℚ → Mat4

/-! ## MatrixStack (insn_assembler.rs lines 32-94) -/

structure MatrixStack where
  top : Nat
  matrices : List Mat4

namespace MatrixStack

/-- `MatrixStack::new()`: one identity matrix, top at 0. -/
def new : MatrixStack := { top := 0, matrices := [Mat4.id] }

/-- `MatrixStack::push()`.  Mirrors the source verbatim: first increments
`top`; if `top > matrices.len()` it pushes `matrices[top - 1]`, otherwise
it assigns `matrices[top] = matrices[top - 1]`.  Both branches index the
`Vec` and may panic (`none`). -/
def push (s : MatrixStack) : Option MatrixStack :=
  let top := s.top + 1
  if top > s.matrices.length then
    match s.matrices.get? (top - 1) with
    | some m => some { top := top, matrices := s.matrices ++ [m] }
    | none => none
  else
    match s.matrices.get? (top - 1) with
    | some m =>
      if top < s.matrices.length then
        some { top := top, matrices := s.matrices.set top m }
      else
        none
    | none => none

/-- `MatrixStack::pop()`: clamps at 0, never panics. -/
def pop (s : MatrixStack) : MatrixStack :=
  if s.top > 0 then { s with top := s.top - 1 } else s

/-- `MatrixStack::get()`: `&matrices[top]`. -/
def get (s : MatrixStack) : Option Mat4 :=
  s.matrices.get? s.top

/-- Replace the top matrix, panicking (`none`) if `top` is out of range,
exactly as `self.matrices[self.top] = ...` would. -/
def setTop (s : MatrixStack) (f : Mat4 → Mat4) : Option MatrixStack :=
  match s.matrices.get? s.top with
  | some m => some { s with matrices := s.matrices.set s.top (f m) }
  | none => none

/-- `MatrixStack::load_identity()`. -/
def loadIdentity (s : MatrixStack) : Option MatrixStack :=
  s.setTop fun _ => Mat4.id

/-- `MatrixStack::translate(v)`: `append_translation_mut`. -/
def translate (s : MatrixStack) (v : Vec3) : Option MatrixStack :=
  s.setTop fun m => appendTranslation m v

/-- `MatrixStack::scale(v)`: `append_nonuniform_scaling_mut`. -/
def scale (s : MatrixStack) (v : Vec3) : Option MatrixStack :=
  s.setTop fun m => appendScaling m v

/-- `MatrixStack::rotate(axis, angle)`: `matrices[top] = qm * matrices[top]`. -/
def rotate (R : RotationFn) (s : MatrixStack) (axis : Vec3) (angle : ℚ) :
    Option MatrixStack :=
  s.setTop fun m => Mat4.mul (R axis angle) m

/-- `MatrixStack::ortho(params)`: `matrices[top] = m * matrices[top]` with
`m` the orthographic matrix. -/
def ortho (s : MatrixStack) (p : OrthoData) : Option MatrixStack :=
  s.setTop fun m => Mat4.mul (orthoMatrix p) m

end MatrixStack

/-! ## sandbox.rs enums -/

inductive MatrixMode where
  | modelView | projection | texture | color
  deriving DecidableEq, Repr

inductive PointerArrayType where
  | color | edgeFlag | fogCoord | colorIndex | normal | secondaryColor
  | texCoord | vertex
  deriving DecidableEq, Repr

/-- client_arrays.rs `PointerArrayType::is_supported`. -/
def PointerArrayType.isSupported : PointerArrayType → Bool
  | .color => true
  | .normal => true
  | .texCoord => true
  | .vertex => true
  | .edgeFlag => false
  | .fogCoord => false
  | .colorIndex => false
  | .secondaryColor => false

inductive DrawMode where
  | points | lineStrip | lineLoop | lines | lineStripAdj | linesAdj
  | triStrip | triFan | tri | triStripAdj | triAdj
  deriving DecidableEq, Repr

/-- `gl_constants::GL_TEXTURE_2D` (0x0DE1). -/
def GL_TEXTURE_2D : Nat := 3553

/-! ## dynamic_shader.rs data model -/

inductive VertexInputType where
  | position | normal | color | texCoord | texIndex
  deriving DecidableEq, Repr

/-- `From<PointerArrayType> for VertexInputType`: panics (`none`) on the
four unsupported kinds. -/
def VertexInputType.fromArray : PointerArrayType → Option VertexInputType
  | .color => some .color
  | .normal => some .normal
  | .texCoord => some .texCoord
  | .vertex => some .position
  | .edgeFlag => none
  | .fogCoord => none
  | .colorIndex => none
  | .secondaryColor => none

structure VertexInputSpec where
  data_type : GLDataType
  num_elements : Nat
  offset : Nat
  deriving DecidableEq, Repr

/-- `VertexBufferFields = [Option<VertexInputSpec>; 5]`, indexed by
`VertexInputType as usize` (position 0, normal 1, color 2, texcoord 3,
texindex 4). -/
structure VertexBufferFields where
  position : Option VertexInputSpec
  normal : Option VertexInputSpec
  color : Option VertexInputSpec
  texCoord : Option VertexInputSpec
  texIndex : Option VertexInputSpec
  deriving DecidableEq, Repr

def VertexBufferFields.empty : VertexBufferFields :=
  ⟨none, none, none, none, none⟩

/-- `desc.fields[field_idx] = Some(spec)`. -/
def VertexBufferFields.setField (f : VertexBufferFields)
    (t : VertexInputType) (s : VertexInputSpec) : VertexBufferFields :=
  match t with
  | .position => { f with position := some s }
  | .normal => { f with normal := some s }
  | .color => { f with color := some s }
  | .texCoord => { f with texCoord := some s }
  | .texIndex => { f with texIndex := some s }

structure VertexBufferLayout where
  fields : VertexBufferFields
  stride : Nat
  deriving DecidableEq, Repr

namespace VertexBufferLayout

/-- `VertexBufferLayout::align_to(width)`. -/
def alignTo (l : VertexBufferLayout) (width : Nat) : VertexBufferLayout :=
  let nPastAlign := l.stride % width
  if nPastAlign > 0 then { l with stride := l.stride + (width - nPastAlign) }
  else l

def position (l : VertexBufferLayout) : Option VertexInputSpec := l.fields.position
def normal (l : VertexBufferLayout) : Option VertexInputSpec := l.fields.normal
def color (l : VertexBufferLayout) : Option VertexInputSpec := l.fields.color
def texcoord (l : VertexBufferLayout) : Option VertexInputSpec := l.fields.texCoord

end VertexBufferLayout

inductive DataSource where
  | pushConstant
  | uniform (set binding : Nat)
  deriving DecidableEq, Repr

inductive ShaderMatrixMode where
  | mvp (src : DataSource)
  | vpm (vp m : DataSource)
  deriving DecidableEq, Repr

inductive ColorMode where
  | flat (src : DataSource)
  | texture (set binding : Nat)
  | array
  deriving DecidableEq, Repr

/-- vulkano rasterization enums; only the variants used by the source. -/
inductive CullMode where
  | none_ | front | back | frontAndBack
  deriving DecidableEq, Repr

inductive FrontFace where
  | counterClockwise | clockwise
  deriving DecidableEq, Repr

/-- vulkano `AttachmentBlend`; the source only ever constructs
`AttachmentBlend::ignore_source()`, so the value is kept abstract. -/
inductive AttachmentBlend where
  | ignoreSource
  deriving DecidableEq, Repr

structure DynamicPipelineRasterization where
  cull_mode : CullMode
  front_face : FrontFace
  /-- pre-multiplied by 10 -/
  line_width : Nat
  color_blending : Option AttachmentBlend
  deriving DecidableEq, Repr

/-- `Default for DynamicPipelineRasterization`. -/
def DynamicPipelineRasterization.default : DynamicPipelineRasterization :=
  { cull_mode := .back
    front_face := .counterClockwise
    line_width := 10
    color_blending := some .ignoreSource }

structure DynamicPipelineSpec where
  draw_mode : DrawMode
  vertex_buffer : VertexBufferLayout
  color : ColorMode
  matrix : ShaderMatrixMode
  rasterization : DynamicPipelineRasterization
  deriving DecidableEq, Repr

/-- `ShaderSpec`: the subset of `DynamicPipelineSpec` relevant to shaders. -/
structure ShaderSpec where
  vertex_buffer : VertexBufferLayout
  color : ColorMode
  matrix : ShaderMatrixMode
  deriving DecidableEq, Repr

/-- `From<&DynamicPipelineSpec> for ShaderSpec`. -/
def ShaderSpec.ofPipelineSpec (s : DynamicPipelineSpec) : ShaderSpec :=
  { vertex_buffer := s.vertex_buffer, color := s.color, matrix := s.matrix }

structure DynamicPipelinePushConstants where
  mvp : Option Mat4
  color : Option Vec4

/-! ## Shader source generation (dynamic_shader.rs lines 260-619) -/

/-- `VectorDataType`: a scalar kind together with the vector size. -/
inductive VectorDataType where
  | u8 (size : Nat) | i8 (size : Nat) | u16 (size : Nat) | i16 (size : Nat)
  | u32 (size : Nat) | i32 (size : Nat) | f32 (size : Nat) | f64 (size : Nat)
  deriving DecidableEq, Repr

namespace VectorDataType

def size : VectorDataType → Nat
  | .u8 s | .i8 s | .u16 s | .i16 s | .u32 s | .i32 s | .f32 s | .f64 s => s

/-- `VectorDataType::get_widening_zeroes`. -/
def getWideningZeroes (v : VectorDataType) : String :=
  match v.size with
  | 1 => ", 0.0, 0.0, 0.0"
  | 2 => ", 0.0, 0.0"
  | 3 => ", 0.0"
  | _ => ""

/-- `VectorDataType::as_strs`: GLSL type prefix and suffix; panics
(`none`) on a vector size above 4. -/
def asStrs (v : VectorDataType) : Option (String × String) :=
  if v.size ≤ 1 then
    match v with
    | .u8 _ | .u16 _ | .u32 _ => some ("uint", "")
    | .i8 _ | .i16 _ | .i32 _ => some ("int", "")
    | .f32 _ => some ("float", "")
    | .f64 _ => some ("double", "")
  else
    let suffix : Option String :=
      match v.size with
      | 2 => some "2"
      | 3 => some "3"
      | 4 => some "4"
      | _ => none
    match suffix with
    | none => none
    | some suf =>
      match v with
      | .u8 _ | .u16 _ | .u32 _ => some ("uvec", suf)
      | .i8 _ | .i16 _ | .i32 _ => some ("ivec", suf)
      | .f32 _ => some ("vec", suf)
      | .f64 _ => some ("dvec", suf)

end VectorDataType

/-- `VertexInputSpec::as_vector`.  In this revision of the source every
arm of the `match` is a `todo!()` stub.  Modelled from the spec: the
shader source is parameterized on the attribute's numeric kind and vector
size, so the evident mapping sends each `GLDataType` to the
`VectorDataType` variant of the same kind carrying `num_elements`; the
`num_elements > 4` guard panics (`none`) as in the source. -/
def VertexInputSpec.asVector (s : VertexInputSpec) : Option VectorDataType :=
  if s.num_elements > 4 then none
  else some <| match s.data_type with
    | .u8 => .u8 s.num_elements
    | .i8 => .i8 s.num_elements
    | .u16 => .u16 s.num_elements
    | .i16 => .i16 s.num_elements
    | .u32 => .u32 s.num_elements
    | .i32 => .i32 s.num_elements
    | .f32 => .f32 s.num_elements
    | .f64 => .f64 s.num_elements

namespace ShaderSpec

/-- `ShaderSpec::append_io`. -/
def appendIo (code : String) (location : Nat) (isInput : Bool)
    (varType : VectorDataType) (name : String) : Option String :=
  match varType.asStrs with
  | none => none
  | some (tbase, tsuffix) =>
    some <| code ++ "layout(location = " ++ toString location ++
      (if isInput then ") in " else ") out ") ++
      tbase ++ tsuffix ++ " " ++ name ++ ";\n"

def appendInput (code : String) (location : Nat) (varType : VectorDataType)
    (name : String) : Option String :=
  appendIo code location true varType name

def appendOutput (code : String) (location : Nat) (varType : VectorDataType)
    (name : String) : Option String :=
  appendIo code location false varType name

/-- `ShaderSpec::get_vertex_shader_code`.  Returns `none` where the source
would panic: a missing position field (`position().unwrap()`), a missing
texcoord/color field in texture/array color mode, or an `as_vector` /
`as_strs` panic. -/
def getVertexShaderCode (s : ShaderSpec) : Option String := do
  let code := "#version 450\n"

  -- VERTEX INPUTS
  let pos ← s.vertex_buffer.position
  let posVec ← pos.asVector
  let code ← appendInput code 0 posVec "position_in"

  let code ←
    match s.vertex_buffer.normal with
    | some n => do
      let nv ← n.asVector
      appendInput code 1 nv "normal_in"
    | none => pure code

  let code ←
    match s.color with
    | .flat .pushConstant => pure code
    | .flat (.uniform _ _) => pure code
    | .texture _ _ => do
      let tc ← s.vertex_buffer.texcoord
      let tcv ← tc.asVector
      appendInput code 2 tcv "texcoord_in"
    | .array => do
      let c ← s.vertex_buffer.color
      let cv ← c.asVector
      appendInput code 2 cv "colors_in"

  -- PUSH CONSTANTS
  let code := code ++ "layout(push_constant) uniform constants \x7b\n"

  let code :=
    match s.matrix with
    | .mvp .pushConstant => code ++ "  mat4 mvp\n"
    | .vpm .pushConstant .pushConstant =>
      code ++ "  mat4 model;\n" ++ "  mat4 vp;\n"
    | _ => code

  let code :=
    if s.color = .flat .pushConstant then code ++ "  vec4 color;\n" else code

  let code := code ++ "\x7d PushConstants;\n"

  -- UNIFORMS
  let code :=
    match s.matrix with
    | .mvp (.uniform set binding) =>
      code ++ "layout (set = " ++ toString set ++ ", binding = " ++
        toString binding ++
        ") uniform MVPUniformData \x7b mat4 matrix; \x7d MVPUniform;\n"
    | .vpm (.uniform vpSet vpBinding) (.uniform mSet mBinding) =>
      code ++ "layout (set = " ++ toString vpSet ++ ", binding = " ++
        toString vpBinding ++
        ") uniform VPUniformData \x7b mat4 matrix; \x7d VPUniform;\n" ++
        "layout (set = " ++ toString mSet ++ ", binding = " ++
        toString mBinding ++
        ") uniform MUniformData \x7b mat4 matrix; \x7d MUniform;\n"
    | _ => code

  let code :=
    match s.color with
    | .flat (.uniform set binding) =>
      code ++ "layout (set = " ++ toString set ++ ", binding = " ++
        toString binding ++
        ") uniform ColorUniformData \x7b vec4 color; \x7d ColorUniform;"
    | _ => code

  -- OUTPUTS TO FRAG SHADER
  let code ←
    match s.color with
    | .array => appendOutput code 0 (.f32 4) "frag_color_out"
    | .texture _ _ => appendOutput code 0 (.f32 2) "tex_coord_out"
    | _ => pure code

  let code ←
    if (s.vertex_buffer.normal).isSome then
      appendOutput code 1 (.f32 3) "normal_out"
    else pure code

  -- CODE
  let code := code ++ "void main() \x7b\n"

  let code :=
    match s.matrix with
    | .mvp .pushConstant =>
      code ++ "  gl_Position = vec4(PushConstants.mvp * position_in" ++
        posVec.getWideningZeroes ++ ");\n"
    | .mvp (.uniform _ _) =>
      code ++ "  gl_Position = vec4(MVPUniform.mvp * position_in" ++
        posVec.getWideningZeroes ++ ");\n"
    | .vpm .pushConstant .pushConstant =>
      code ++
        "  gl_Position = vec4(PushConstants.model * PushConstants.vp * position_in"
        ++ posVec.getWideningZeroes ++ ");\n"
    | .vpm (.uniform _ _) (.uniform _ _) =>
      code ++
        "  gl_Position = vec4(MUniform.matrix * VPUniform.matrix * position_in"
        ++ posVec.getWideningZeroes ++ ");\n"
    | _ => code

  let code :=
    match s.color with
    | .flat .pushConstant => code ++ "  frag_color_out = PushConstants.color;\n"
    | .flat (.uniform _ _) => code ++ "  frag_color_out = ColorUniform.color;\n"
    | .texture _ _ => code ++ "  texcoord_out = texcoord_in;\n"
    | .array => code ++ "  frag_color_out = color_in;\n"

  let code :=
    if (s.vertex_buffer.normal).isSome then
      code ++ "  normal_out = normal_in;\n"
    else code

  pure (code ++ "\x7d\n")

/-- `ShaderSpec::get_fragment_shader_code`. -/
def getFragmentShaderCode (s : ShaderSpec) : Option String := do
  let code := "#version 450\n"

  -- UNIFORMS
  let code :=
    match s.color with
    | .texture set binding =>
      code ++ "layout (set = " ++ toString set ++ ", binding = " ++
        toString binding ++ ") uniform sampler2D sampler;\n"
    | _ => code

  -- INPUTS FROM VERT SHADER
  let code ←
    match s.color with
    | .flat _ | .array => appendInput code 0 (.f32 4) "frag_color_in"
    | .texture _ _ => appendInput code 0 (.f32 2) "tex_coord_in"

  let code ←
    if (s.vertex_buffer.normal).isSome then
      appendInput code 1 (.f32 3) "normal_in"
    else pure code

  -- OUTPUTS TO FRAME BUFFERS
  let code ← appendOutput code 0 (.f32 4) "frag_color_out"

  let code ←
    if (s.vertex_buffer.normal).isSome then
      appendInput code 1 (.f32 3) "normal_out"
    else pure code

  -- CODE
  let code := code ++ "void main() \x7b\n"

  let code :=
    match s.color with
    | .flat _ | .array => code ++ "  frag_color_out = frag_color_in;\n"
    | .texture _ _ =>
      code ++ "  frag_color_out = texture(sampler, tex_coord_in);\n"

  let code :=
    if (s.vertex_buffer.normal).isSome then
      code ++ "  normal_out = normal_in;\n"
    else code

  pure (code ++ "\x7d\n")

end ShaderSpec

/-! ## commands.rs

The packed vertex buffer (`Vec<u8>`, zero-initialised) is modelled as its
byte length together with the ordered list of writes performed into it;
float stores carry their exact numeric values instead of an IEEE-754 bit
pattern. -/

inductive CellWrite where
  /-- `dest.copy_from_slice(src)`: raw bytes copied verbatim. -/
  | bytes (destStart : Nat) (data : List Nat)
  /-- `convert!` / `convert_norm!`: f32 values stored at `destStart`. -/
  | floats (destStart : Nat) (vals : List ℚ)
  deriving DecidableEq, Repr

structure Buffer where
  byteLength : Nat
  writes : List CellWrite
  deriving DecidableEq, Repr

inductive RenderCommand where
  | bindDynamicGraphicsPipeline (pipeline : DynamicPipelineSpec)
      (push_constants : DynamicPipelinePushConstants)
  | draw (start_vertex vertex_count : Nat) (data : Buffer)
  | clearDepth

/-- `CommandQueue`: the `Buffered` variant used by tests appends to a
list; `push` never fails for it.  The `Async`/`Immediate` variants forward
to excluded collaborators and are out of the model. -/
abbrev CommandQueue := List RenderCommand

/-! ## insn_assembler.rs: state -/

/-- `tracing::warn!` / `tracing::info!` events of insn_assembler.rs,
identified by their `what`/field payloads. -/
inductive LogMsg where
  | warnUnsupportedArray (array : String)
  | warnNoData (array : String)
  | warnLengthMismatch (array : String) (arrayLength expectedLength : Nat)
      (operation : String)
  | infoNoTexture2D
  | infoNoActiveTexture
  | infoBadTexcoords
  | warnDrawArraysWithoutPositions
  | warnTexture2DWithoutTexcoordArray
  | warnTexture2DWithoutBoundTexture (textureUnit : Nat)
  deriving DecidableEq, Repr

structure ClientArray where
  enabled : Bool
  vertexCount : Nat
  dataType : GLDataType
  elementCount : Nat
  data : Option (List Nat)
  deriving DecidableEq, Repr

/-- `ClientArray::new()`. -/
def ClientArray.new : ClientArray :=
  { enabled := false, vertexCount := 0, dataType := .u8, elementCount := 0
    data := none }

def MODELVIEW_MATRIX_IDX : Nat := 0
def PROJECTION_MATRIX_IDX : Nat := 1
def TEXTURE_MATRIX_IDX : Nat := 2
def COLOR_MATRIX_IDX : Nat := 3

def getMatrixIndex : MatrixMode → Nat
  | .modelView => MODELVIEW_MATRIX_IDX
  | .projection => PROJECTION_MATRIX_IDX
  | .texture => TEXTURE_MATRIX_IDX
  | .color => COLOR_MATRIX_IDX

def getClientArrayIndex : PointerArrayType → Fin 8
  | .color => 0
  | .edgeFlag => 1
  | .fogCoord => 2
  | .colorIndex => 3
  | .normal => 4
  | .secondaryColor => 5
  | .texCoord => 6
  | .vertex => 7

def getClientArrayType : Fin 8 → PointerArrayType
  | ⟨0, _⟩ => .color
  | ⟨1, _⟩ => .edgeFlag
  | ⟨2, _⟩ => .fogCoord
  | ⟨3, _⟩ => .colorIndex
  | ⟨4, _⟩ => .normal
  | ⟨5, _⟩ => .secondaryColor
  | ⟨6, _⟩ => .texCoord
  | ⟨7, _⟩ => .vertex

def getClientArrayName : Fin 8 → String
  | ⟨0, _⟩ => "color"
  | ⟨1, _⟩ => "edgeflag"
  | ⟨2, _⟩ => "fogcoord"
  | ⟨3, _⟩ => "color_index"
  | ⟨4, _⟩ => "normal"
  | ⟨5, _⟩ => "secondary_color"
  | ⟨6, _⟩ => "texcoord"
  | ⟨7, _⟩ => "pos"

/-! ## sandbox.rs `RenderInstruction`

The `f64` variants (`Translated`/`Rotated`/`Scaled`) exist in the enum but
have no arm in `RenderInsnAssembler::feed` in this revision; they are
modelled as stuck (`none`). -/

inductive RenderInstruction where
  | matrixMode (mode : MatrixMode)
  | pushMatrix
  | popMatrix
  | loadIdentity
  | ortho (data : OrthoData)
  | translate (delta : Vec3)
  | translated (delta : Vec3)
  | rotate (angle : ℚ) (axis : Vec3)
  | rotated (angle : ℚ) (axis : Vec3)
  | scale (scaleBy : Vec3)
  | scaled (scaleBy : Vec3)
  | enable (param : Int)
  | disable (param : Int)
  | setClientState (enabled : Bool) (array_type : PointerArrayType)
  | setPointer (vec_count : Nat) (array_type : PointerArrayType)
      (item_type : PointerDataType) (data : List Nat) (size : Nat)
  | drawArrays (mode : DrawMode) (first count : Nat)
  | setActiveTextureUnit (unit : Nat)
  | bindTexture (id : Int)
  | texCoord (coord : Vec4)
  | setColor (color : Vec4)
  | begin (mode : DrawMode)
  | vertex (v : Vec4)
  | end_
  | alphaFunc
  | clearDepth

/-- `RenderInstruction::is_matrix_mutation` (insn_assembler.rs 182-193). -/
def RenderInstruction.isMatrixMutation : RenderInstruction → Bool
  | .pushMatrix => true
  | .popMatrix => true
  | .loadIdentity => true
  | .ortho _ => true
  | .translate _ => true
  | .rotate _ _ => true
  | .scale _ => true
  | _ => false

/-- Rust `i32 as usize` (sign-extend, reinterpret as unsigned 64-bit). -/
def usizeOfI32 (i : Int) : Nat := (i % (2 ^ 64)).toNat

structure VertexBufferSlot where
  array : ClientArray
  arrayType : PointerArrayType
  dataType : GLDataType
  bufferOffset : Nat
  deriving DecidableEq, Repr

structure RenderInsnAssembler where
  activeFlags : List Nat
  activeMatrix : Nat
  matrixStacks : Fin 4 → MatrixStack
  activeMvpCache : Option Mat4
  activeUnit : Nat
  textureUnits : Fin 16 → Option Int
  activeColor : Vec4
  texcoord : Vec4
  clientArrays : Fin 8 → ClientArray
  commands : CommandQueue
  log : List LogMsg

namespace RenderInsnAssembler

/-- `RenderInsnAssembler::new` (with an empty `Buffered` command queue). -/
def new : RenderInsnAssembler :=
  { activeFlags := []
    activeMatrix := 0
    matrixStacks := fun _ => MatrixStack.new
    activeMvpCache := none
    activeUnit := 0
    textureUnits := fun _ => none
    activeColor := ⟨1, 1, 1, 1⟩
    texcoord := ⟨0, 0, 0, 0⟩
    clientArrays := fun _ => ClientArray.new
    commands := []
    log := [] }

/-- `RenderInsnAssembler::is_enabled`. -/
def isEnabled (s : RenderInsnAssembler) (flag : Nat) : Bool :=
  s.activeFlags.contains flag

/-- `RenderInsnAssembler::get_active_texture`: indexes
`texture_units[active_unit]` and panics (`none`) past the 16 units. -/
def getActiveTexture (s : RenderInsnAssembler) : Option (Option Int) :=
  if h : s.activeUnit < 16 then some (s.textureUnits ⟨s.activeUnit, h⟩)
  else none

/-- Apply a matrix-stack operation to `matrix_stacks[active_matrix]`. -/
def withActiveStack (s : RenderInsnAssembler)
    (f : MatrixStack → Option MatrixStack) : Option RenderInsnAssembler :=
  if h : s.activeMatrix < 4 then
    (f (s.matrixStacks ⟨s.activeMatrix, h⟩)).map fun st =>
      { s with matrixStacks := Function.update s.matrixStacks ⟨s.activeMatrix, h⟩ st }
  else none

end RenderInsnAssembler

/-! ## insn_assembler.rs: `get_vertex_buffer_layout` (lines 376-501) -/

structure LayoutAcc where
  desc : VertexBufferLayout
  layout : List VertexBufferSlot
  vertexCount : Option Nat
  logs : List LogMsg

def LayoutAcc.init : LayoutAcc :=
  { desc := { fields := VertexBufferFields.empty, stride := 0 }
    layout := [], vertexCount := none, logs := [] }

/-- Append one field descriptor (and, for texcoord, the extra 16-bit
texture-index field) to the layout, advancing and 4-aligning the stride.
The texture-index slot keeps `array_type = TexCoord`, as the source pushes
it with the loop's `array_type`. -/
def appendField (acc : LayoutAcc) (array : ClientArray)
    (arrayType : PointerArrayType) : Option LayoutAcc :=
  let size := array.dataType.size
  match VertexInputType.fromArray arrayType with
  | none => none
  | some fieldIdx =>
    let offset := acc.desc.stride
    let fields := acc.desc.fields.setField fieldIdx
      { data_type := array.dataType, num_elements := array.elementCount
        offset := offset }
    let desc := VertexBufferLayout.alignTo
      { fields := fields, stride := offset + size * array.elementCount } 4
    let acc := { acc with
      desc := desc
      layout := acc.layout ++
        [{ array := array, arrayType := arrayType
           dataType := array.dataType, bufferOffset := offset }] }
    if arrayType = .texCoord then
      let offset2 := acc.desc.stride
      let fields2 := acc.desc.fields.setField .texIndex
        { data_type := .u16, num_elements := 1, offset := offset2 }
      let desc2 := VertexBufferLayout.alignTo
        { fields := fields2, stride := offset2 + GLDataType.u16.size * 1 } 4
      some { acc with
        desc := desc2
        layout := acc.layout ++
          [{ array := array, arrayType := arrayType
             dataType := .u16, bufferOffset := offset2 }] }
    else
      some acc

/-- The vertex-count reconciliation of `get_vertex_buffer_layout`
(lines 409-428): if a count is already present and this array's count
differs, warn and keep the smaller one; otherwise record this array's
count. -/
def reconcileCount (name : String) (cnt : Nat) (acc : LayoutAcc) : LayoutAcc :=
  match acc.vertexCount with
  | some vc =>
    if cnt ≠ vc then
      { acc with
        vertexCount := some (if cnt < vc then cnt else vc)
        logs := acc.logs ++
          [.warnLengthMismatch name cnt vc
            (if cnt < vc then "pruned the other arrays" else "pruned this array")] }
    else acc
  | none => { acc with vertexCount := some cnt }

/-- One iteration of the `for (i, array) in self.client_arrays` loop. -/
def layoutStep (s : RenderInsnAssembler) (acc : LayoutAcc) (i : Fin 8) :
    Option LayoutAcc :=
  let array := s.clientArrays i
  if !array.enabled then some acc
  else
    let arrayType := getClientArrayType i
    if !arrayType.isSupported then
      some { acc with logs := acc.logs ++ [.warnUnsupportedArray (getClientArrayName i)] }
    else
      match array.data with
      | none =>
        some { acc with logs := acc.logs ++ [.warnNoData (getClientArrayName i)] }
      | some _ =>
        -- vertex-count reconciliation happens before the texcoord gating
        let acc := reconcileCount (getClientArrayName i) array.vertexCount acc
        if arrayType = .texCoord then
          if !s.isEnabled GL_TEXTURE_2D then
            some { acc with logs := acc.logs ++ [.infoNoTexture2D] }
          else
            match s.getActiveTexture with
            | none => none
            | some none =>
              some { acc with logs := acc.logs ++ [.infoNoActiveTexture] }
            | some (some _) =>
              if !(array.dataType = .f32 ∨ array.dataType = .f64 : Bool) ∨
                  array.elementCount ≠ 2 then
                some { acc with logs := acc.logs ++ [.infoBadTexcoords] }
              else
                appendField acc array arrayType
        else
          appendField acc array arrayType

/-- `RenderInsnAssembler::get_vertex_buffer_layout`.  The trailing
`vertex_count.unwrap()` panics (`none`) when no array contributed a count. -/
def RenderInsnAssembler.getVertexBufferLayout (s : RenderInsnAssembler) :
    Option (VertexBufferLayout × List VertexBufferSlot × Nat × List LogMsg) := do
  let acc ← (List.finRange 8).foldlM (layoutStep s) LayoutAcc.init
  match acc.vertexCount with
  | some vc => some (acc.desc, acc.layout, vc, acc.logs)
  | none => none

/-! ## insn_assembler.rs: `assemble_buffer` (lines 503-628) -/

/-- `slice l start len` models `&l[start..start+len]` after the caller has
checked the range. -/
def slice (l : List Nat) (start len : Nat) : List Nat :=
  (l.drop start).take len

def isColorKind (t : PointerArrayType) : Bool :=
  t = .color || t = .secondaryColor

/-- Conversion of one vertex of one slot.  Mirrors the inner loop of
`assemble_buffer`: slice bounds panic; the `convert!`/`convert_norm!`
macros reinterpret the destination as f32 slots and the source as scalars
of the array's type and `assert_eq!` the two lengths (the destination
reserves `element_count * slot.data_type.size()` bytes, so at most
`.. / 4` f32 slots fit); `F32`/`F64` sources are copied byte for byte. -/
def convertSlotVertex (slot : VertexBufferSlot) (stride bufLen : Nat)
    (vertexIdx : Nat) : Option CellWrite :=
  let array := slot.array
  let destByteSize := array.elementCount * slot.dataType.size
  let srcByteSize := array.elementCount * array.dataType.size
  let destStart := vertexIdx * stride + slot.bufferOffset
  let srcStart := vertexIdx * srcByteSize
  let data := array.data.getD []
  if destStart + destByteSize > bufLen then none
  else if srcStart + srcByteSize > data.length then none
  else
    let src := slice data srcStart srcByteSize
    match array.dataType with
    | .f32 | .f64 =>
      if destByteSize = srcByteSize then some (.bytes destStart src) else none
    | t =>
      let destSlots := destByteSize / 4
      let srcCount := srcByteSize / t.size
      if destSlots ≠ srcCount then none
      else
        some (.floats destStart ((List.range srcCount).map fun e =>
          let v := t.decodeValue (slice src (e * t.size) t.size)
          if isColorKind slot.arrayType then v / t.maxValue else v))

/-- Per-slot assembly.  A `TexIndex`-typed slot is skipped; a `TexCoord`
slot panics (`none`): the source looks for a slot whose `array_type` maps
to `TexIndex` and `unwrap`s the result, but the texture-index slot is
pushed with `array_type = TexCoord`, so the `find` fails — and the branch
body is in any case left unfinished in this revision (`self.texture_lookup.`
is a truncated expression). -/
def assembleSlot (slot : VertexBufferSlot) (stride bufLen vc : Nat) :
    Option (List CellWrite) :=
  match VertexInputType.fromArray slot.arrayType with
  | none => none
  | some .texIndex => some []
  | some .texCoord => none
  | some _ => (List.range vc).mapM (convertSlotVertex slot stride bufLen)

/-- `RenderInsnAssembler::assemble_buffer`. -/
def RenderInsnAssembler.assembleBuffer (s : RenderInsnAssembler) :
    Option (VertexBufferLayout × Buffer × List LogMsg) := do
  let (desc, layout, vc, logs) ← s.getVertexBufferLayout
  let bufLen := vc * desc.stride
  let writes ← layout.foldlM (fun ws slot => do
      let w ← assembleSlot slot desc.stride bufLen vc
      pure (ws ++ w)) []
  pure (desc, { byteLength := bufLen, writes := writes }, logs)

/-! ## insn_assembler.rs: `get_mvp_matrix`, `draw_arrays`, `feed` -/

/-- `RenderInsnAssembler::get_mvp_matrix`: returns the memoized MVP, or
computes `projection.get() * modelview.get()` and memoizes it. -/
def RenderInsnAssembler.getMvpMatrix (s : RenderInsnAssembler) :
    Option (Mat4 × RenderInsnAssembler) :=
  match s.activeMvpCache with
  | some m => some (m, s)
  | none => do
    let proj ← (s.matrixStacks 1).get
    let mv ← (s.matrixStacks 0).get
    let m := Mat4.mul proj mv
    some (m, { s with activeMvpCache := some m })

/-- The tail of `draw_arrays` once the color mode is settled: build the
`DynamicPipelineSpec`, fetch the (possibly memoized) MVP, and push the
bind-pipeline and draw commands. -/
def RenderInsnAssembler.emitDraw (s : RenderInsnAssembler) (mode : DrawMode)
    (first count : Nat) (desc : VertexBufferLayout) (buffer : Buffer)
    (color : ColorMode) (logs : List LogMsg) : Option RenderInsnAssembler :=
  let pipeline : DynamicPipelineSpec :=
    { draw_mode := mode
      vertex_buffer := desc
      matrix := .mvp .pushConstant
      color := color
      rasterization := DynamicPipelineRasterization.default }
  (s.getMvpMatrix).bind fun a =>
    some { a.2 with
      commands := a.2.commands ++
        [.bindDynamicGraphicsPipeline pipeline
          { mvp := some a.1
            color :=
              if pipeline.color = .flat .pushConstant then some s.activeColor
              else none },
         .draw first count buffer]
      log := a.2.log ++ logs }

/-- `RenderInsnAssembler::draw_arrays` (lines 630-690). -/
def RenderInsnAssembler.drawArrays (s : RenderInsnAssembler)
    (mode : DrawMode) (first count : Nat) : Option RenderInsnAssembler :=
  if !(s.clientArrays (getClientArrayIndex .vertex)).enabled then
    some { s with log := s.log ++ [.warnDrawArraysWithoutPositions] }
  else do
    let (desc, buffer, logs) ← s.assembleBuffer
    let (color, logs) ←
      if s.activeFlags.contains GL_TEXTURE_2D then
        match s.getActiveTexture with
        | none => none
        | some (some _) =>
          if desc.texcoord.isSome then
            some (ColorMode.texture 1 0, logs)
          else
            some (ColorMode.flat .pushConstant,
              logs ++ [.warnTexture2DWithoutTexcoordArray])
        | some none =>
          some (ColorMode.flat .pushConstant,
            logs ++ [.warnTexture2DWithoutBoundTexture s.activeUnit])
      else
        some (ColorMode.flat .pushConstant, logs)
    s.emitDraw mode first count desc buffer color logs

/-- One iteration of `RenderInsnAssembler::feed` (lines 261-357):
the MVP-cache invalidation check runs first, then the instruction is
dispatched.  `Begin`/`Vertex`/`End`/`AlphaFunc` are `todo!()` stubs and
the `f64` matrix variants have no match arm; all are `none`. -/
def feedStep (R : RotationFn) (s : RenderInsnAssembler)
    (insn : RenderInstruction) : Option RenderInsnAssembler :=
  let s :=
    if insn.isMatrixMutation &&
        (s.activeMatrix == PROJECTION_MATRIX_IDX ||
         s.activeMatrix == MODELVIEW_MATRIX_IDX) then
      { s with activeMvpCache := none }
    else s
  match insn with
  | .matrixMode mode => some { s with activeMatrix := getMatrixIndex mode }
  | .pushMatrix => s.withActiveStack (·.push)
  | .popMatrix => s.withActiveStack (fun st => some st.pop)
  | .loadIdentity => s.withActiveStack (·.loadIdentity)
  | .ortho data => s.withActiveStack (·.ortho data)
  | .translate delta => s.withActiveStack (·.translate delta)
  | .rotate angle axis => s.withActiveStack (fun st => st.rotate R axis angle)
  | .scale scaleBy => s.withActiveStack (·.scale scaleBy)
  | .enable param =>
    some { s with activeFlags := s.activeFlags.insert (usizeOfI32 param) }
  | .disable param =>
    some { s with activeFlags := s.activeFlags.erase (usizeOfI32 param) }
  | .setClientState enabled arrayType =>
    let i := getClientArrayIndex arrayType
    some { s with clientArrays :=
      Function.update s.clientArrays i { s.clientArrays i with enabled := enabled } }
  | .setPointer vecCount arrayType itemType data size =>
    let i := getClientArrayIndex arrayType
    some { s with clientArrays :=
      Function.update s.clientArrays i ({ s.clientArrays i with
        elementCount := size
        vertexCount := vecCount
        dataType := itemType
        data := some data }) }
  | .drawArrays mode first count => s.drawArrays mode first count
  | .setActiveTextureUnit unit => some { s with activeUnit := unit }
  | .bindTexture id =>
    if h : s.activeUnit < 16 then
      let u : Option Int := if id = 0 then none else some id
      some { s with textureUnits := Function.update s.textureUnits ⟨s.activeUnit, h⟩ u }
    else none
  | .texCoord coord => some { s with texcoord := coord }
  | .setColor color => some { s with activeColor := color }
  | .begin _ => none
  | .vertex _ => none
  | .end_ => none
  | .alphaFunc => none
  | .translated _ => none
  | .rotated _ _ => none
  | .scaled _ => none
  | .clearDepth => some { s with commands := s.commands ++ [.clearDepth] }

/-- `RenderInsnAssembler::feed`: process a list of instructions in order. -/
def feed (R : RotationFn) (s : RenderInsnAssembler)
    (insns : List RenderInstruction) : Option RenderInsnAssembler :=
  insns.foldlM (feedStep R) s

/-! ## sandbox_jni/client_arrays.rs `addPointerArray` (lines 64-115)

Returns the `vec_count` and the tightly packed byte buffer carried by the
`SetPointer` instruction the function pushes.  `assert!(size <= 4)`,
division by a zero stride and out-of-range source slices panic (`none`). -/

/-- `let stride = if stride > 0 { stride } else { vec_byte_size };` -/
def resolvedStride (size stride : Nat) (itemType : PointerDataType) : Nat :=
  if stride > 0 then stride else size * itemType.size

def addPointerArray (size stride : Nat) (itemType : PointerDataType)
    (data : List Nat) : Option (Nat × List Nat) :=
  if size > 4 then none
  else
    let vecByteSize := size * itemType.size
    let stride := resolvedStride size stride itemType
    if stride = 0 then none
    else
      let vecCount := data.length / stride
      if (List.range vecCount).all
          (fun i => decide (i * stride + vecByteSize ≤ data.length)) then
        some (vecCount,
          (List.range vecCount).flatMap fun i => slice data (i * stride) vecByteSize)
      else none

/-! ## dynamic_shader.rs `PipelineCompiler` (lines 630-939)

The caches hold GPU objects; the model identifies each compiled shader
module and pipeline by a serial number (`Nat`) and counts compilations.
`WeakValueHashMap::get` succeeds only while some `Arc` to the cached value
is still alive, so liveness is a parameter (`alive`) of each `compile`
call.  The shader `LruCache`s are modelled as unbounded association lists:
their capacity bound only evicts entries, which none of the proved
properties depend on.  The vulkano descriptor/layout/pipeline construction
consumes the spec but does not affect caching and is abstracted into the
fresh serial number. -/

def assocGet {α β : Type} [DecidableEq α] (l : List (α × β)) (k : α) :
    Option β :=
  match l with
  | [] => none
  | (a, b) :: rest => if a = k then some b else assocGet rest k

def assocPut {α β : Type} [DecidableEq α] (l : List (α × β)) (k : α) (v : β) :
    List (α × β) :=
  match l with
  | [] => [(k, v)]
  | (a, b) :: rest => if a = k then (k, v) :: rest else (a, b) :: assocPut rest k v

structure PipelineCompiler where
  cache : List (DynamicPipelineSpec × Nat)
  vertexShaders : List (ShaderSpec × Nat)
  fragmentShaders : List (ShaderSpec × Nat)
  nextId : Nat
  shaderCompiles : Nat
  pipelineBuilds : Nat

namespace PipelineCompiler

/-- `self.cache.get(spec)`: a weak-map hit needs a live value. -/
def cacheGet (c : PipelineCompiler) (alive : Nat → Bool)
    (spec : DynamicPipelineSpec) : Option Nat :=
  match assocGet c.cache spec with
  | some p => if alive p then some p else none
  | none => none

/-- `PipelineCompiler::compile_vertex_shader`: LRU lookup, else compile
(glslang) and insert. -/
def compileVertexShader (c : PipelineCompiler) (spec : ShaderSpec) :
    Nat × PipelineCompiler :=
  match assocGet c.vertexShaders spec with
  | some m => (m, c)
  | none =>
    let m := c.nextId
    (m, { c with
      nextId := c.nextId + 1
      shaderCompiles := c.shaderCompiles + 1
      vertexShaders := assocPut c.vertexShaders spec m })

/-- `PipelineCompiler::compile_fragment_shader`.  (Caching is identical to
the vertex path; note the source feeds `get_vertex_shader_code()` to the
fragment compiler, which affects the compiled bytes but not the caching
behaviour modelled here.) -/
def compileFragmentShader (c : PipelineCompiler) (spec : ShaderSpec) :
    Nat × PipelineCompiler :=
  match assocGet c.fragmentShaders spec with
  | some m => (m, c)
  | none =>
    let m := c.nextId
    (m, { c with
      nextId := c.nextId + 1
      shaderCompiles := c.shaderCompiles + 1
      fragmentShaders := assocPut c.fragmentShaders spec m })

/-- `PipelineCompiler::compile` (lines 640-868): weak-cache lookup; on a
miss, compile-or-fetch both shader modules, build the pipeline, insert it
into the cache and return it. -/
def compile (alive : Nat → Bool) (c : PipelineCompiler)
    (spec : DynamicPipelineSpec) : Nat × PipelineCompiler :=
  match c.cacheGet alive spec with
  | some p => (p, c)
  | none =>
    let shaderSpec := ShaderSpec.ofPipelineSpec spec
    let r1 := c.compileVertexShader shaderSpec
    let r2 := r1.2.compileFragmentShader shaderSpec
    let c2 := r2.2
    let p := c2.nextId
    (p, { c2 with
      nextId := c2.nextId + 1
      pipelineBuilds := c2.pipelineBuilds + 1
      cache := assocPut c2.cache spec p })

end PipelineCompiler

/-! ## Shared helpers for the theorems -/

/-- A concrete stand-in for the nalgebra axis-angle rotation function,
used to instantiate `RotationFn` parameters on concrete inputs. -/
def rotationStub : RotationFn := fun _ _ => Mat4.id

lemma appendTranslation_eq (m : Mat4) (v : Vec3) :
    appendTranslation m v = Mat4.mul (translationMatrix v) m := by
  funext i j
  fin_cases i <;>
    simp [appendTranslation, Mat4.mul, translationMatrix, Vec3.comp]

lemma appendScaling_eq (m : Mat4) (v : Vec3) :
    appendScaling m v = Mat4.mul (scalingMatrix v) m := by
  funext i j
  fin_cases i <;>
    simp [appendScaling, Mat4.mul, scalingMatrix, Vec3.comp]

lemma setTop_get (st : MatrixStack) (f : Mat4 → Mat4) (m : Mat4)
    (h : st.get = some m) :
    (st.setTop f).bind MatrixStack.get = some (f m) := by
  unfold MatrixStack.get MatrixStack.setTop at *
  rw [h]
  show (st.matrices.set st.top (f m)).get? st.top = some (f m)
  have hlt : st.top < st.matrices.length := by
    rw [List.get?_eq_getElem?] at h
    exact (List.getElem?_eq_some.mp h).1
  rw [List.get?_eq_getElem?]
  exact List.getElem?_set_eq_of_lt _ hlt

/-! ## Claim theorems -/

/-- C2: the claim states that for every sequence of `push()`/`pop()` calls
from the initial state, `push()` never panics and preserves the invariant
`top < matrices.len()`.  The code violates this at the very first `push()`:
after `top += 1` the spare-capacity test reads `top > matrices.len()`
instead of `>=`, so with `top == matrices.len()` the in-place branch
executes `matrices[self.top] = ...` one past the end of the `Vec` and
panics.  Both the bare stack operation and feeding one `PushMatrix`
instruction to a fresh assembler hit the panic. -/
theorem mcvk_C2 :
    MatrixStack.push MatrixStack.new = none ∧
    feed rotationStub RenderInsnAssembler.new [.pushMatrix] = none :=
  ⟨rfl, rfl⟩

/-- Failing input for C3: an enabled color array of three unsigned bytes
(one vertex) next to an enabled float position array (one vertex). -/
def u8ColorState : RenderInsnAssembler :=
  { RenderInsnAssembler.new with clientArrays := fun i =>
      if i.val = 0 then
        { enabled := true, vertexCount := 1, dataType := .u8
          elementCount := 3, data := some [255, 0, 0] }
      else if i.val = 7 then
        { enabled := true, vertexCount := 1, dataType := .f32
          elementCount := 3, data := some (List.replicate 12 0) }
      else ClientArray.new }

/-- C3: the claim states that `assemble_buffer` converts every included
attribute to float32 (normalized `v/M` for color kinds, plain casts
elsewhere) without panicking.  The code instead panics for every integer
source type narrower than 4 bytes: the layout reserves
`element_count * source_type_size` bytes for the field, the conversion
macros reinterpret that destination as f32 slots (3 bytes hold 0 slots for
a u8 RGB color) and `assert_eq!(dest.len(), src.len())` fails.  Evaluating
the model at the failing input: both `assemble_buffer` and the enclosing
`draw_arrays` panic (`none`) instead of producing `255/255, 0, 0`. -/
theorem mcvk_C3 :
    u8ColorState.assembleBuffer = none ∧
    u8ColorState.drawArrays .tri 0 1 = none :=
  ⟨rfl, rfl⟩

/-- C4 counterexample: the claim states that after `translate(v)` the top
equals `m * T(v)` (post-multiplication).  Taking `m = S(2,1,1)` and
`v = (1,0,0)`, the code (`append_translation_mut`, i.e. `T(v) * m`) leaves
entry (0,3) equal to 1, while `m * T(v)` has 2 there. -/
theorem mcvk_C4_counterexample :
    ¬ ((MatrixStack.translate { top := 0, matrices := [scalingMatrix ⟨2,1,1⟩] }
          ⟨1,0,0⟩).bind MatrixStack.get =
        some (Mat4.mul (scalingMatrix ⟨2,1,1⟩) (translationMatrix ⟨1,0,0⟩))) := by
  intro h
  have h1 : (MatrixStack.translate { top := 0, matrices := [scalingMatrix ⟨2,1,1⟩] }
      ⟨1,0,0⟩).bind MatrixStack.get =
      some (appendTranslation (scalingMatrix ⟨2,1,1⟩) ⟨1,0,0⟩) := rfl
  rw [h1] at h
  have h3 := congrFun (congrFun (Option.some.inj h) 0) 3
  simp [appendTranslation, Mat4.mul, scalingMatrix, translationMatrix,
    Vec3.comp] at h3

/-- C4 (amended): for a stack whose top is `m`, `translate(v)` replaces the
top by `T(v) * m` and `scale(v)` by `S(v) * m` (pre-multiplication by the
delta, world-space composition — not `m * T(v)`/`m * S(v)` as claimed),
while `rotate(axis, angle)` pre-multiplies the rotation matrix `R`
exactly as claimed. -/
theorem mcvk_C4 (R : RotationFn) (st : MatrixStack) (m : Mat4)
    (v sc axis : Vec3) (angle : ℚ) (h : st.get = some m) :
    (st.translate v).bind MatrixStack.get =
      some (Mat4.mul (translationMatrix v) m) ∧
    (st.scale sc).bind MatrixStack.get =
      some (Mat4.mul (scalingMatrix sc) m) ∧
    (st.rotate R axis angle).bind MatrixStack.get =
      some (Mat4.mul (R axis angle) m) := by
  refine ⟨?_, ?_, ?_⟩
  · show (st.setTop fun mm => appendTranslation mm v).bind MatrixStack.get = _
    rw [setTop_get st _ m h, appendTranslation_eq]
  · show (st.setTop fun mm => appendScaling mm sc).bind MatrixStack.get = _
    rw [setTop_get st _ m h, appendScaling_eq]
  · show (st.setTop fun mm => Mat4.mul (R axis angle) mm).bind MatrixStack.get = _
    rw [setTop_get st _ m h]

/-- C4 witness: the amended statement evaluated on a fresh stack. -/
theorem mcvk_C4_witness :
    (MatrixStack.new.translate ⟨1,2,3⟩).bind MatrixStack.get =
      some (Mat4.mul (translationMatrix ⟨1,2,3⟩) Mat4.id) ∧
    (MatrixStack.new.scale ⟨2,3,4⟩).bind MatrixStack.get =
      some (Mat4.mul (scalingMatrix ⟨2,3,4⟩) Mat4.id) ∧
    (MatrixStack.new.rotate rotationStub ⟨0,0,1⟩ 1).bind MatrixStack.get =
      some (Mat4.mul (rotationStub ⟨0,0,1⟩ 1) Mat4.id) :=
  mcvk_C4 rotationStub MatrixStack.new Mat4.id ⟨1,2,3⟩ ⟨2,3,4⟩ ⟨0,0,1⟩ 1 rfl

/-- C7: the claim states that a `DrawArrays` under protocol misuse never
panics; in particular an enabled client array whose data was never
provided should only degrade with a warning.  But when the position array
is enabled with no data (and no other array contributes), every array is
skipped during layout, `vertex_count` stays `None`, and the trailing
`vertex_count.unwrap()` in `get_vertex_buffer_layout` panics — the model
returns `none` for `feed [SetClientState(Vertex, true), DrawArrays]`.
(The disabled-position half of the claim does hold: the second conjunct
shows that a draw without the position array is a pure no-op that only
logs a warning.) -/
theorem mcvk_C7 :
    feed rotationStub RenderInsnAssembler.new
      [.setClientState true .vertex, .drawArrays .tri 0 3] = none ∧
    RenderInsnAssembler.new.drawArrays .tri 0 3 =
      some { RenderInsnAssembler.new with log := [.warnDrawArraysWithoutPositions] } :=
  ⟨rfl, rfl⟩

/-- C9: shader source generation is a pure function of the `ShaderSpec`,
so structurally equal specs yield byte-identical vertex and fragment
sources (where they produce sources at all). -/
theorem mcvk_C9 (s1 s2 : ShaderSpec) (h : s1 = s2) :
    ShaderSpec.getVertexShaderCode s1 = ShaderSpec.getVertexShaderCode s2 ∧
    ShaderSpec.getFragmentShaderCode s1 = ShaderSpec.getFragmentShaderCode s2 := by
  subst h
  exact ⟨rfl, rfl⟩

/-- A concrete shader spec: float32x3 positions, flat push-constant color,
push-constant MVP. -/
def c9spec : ShaderSpec :=
  { vertex_buffer :=
      { fields :=
          { position := some { data_type := .f32, num_elements := 3, offset := 0 }
            normal := none, color := none, texCoord := none, texIndex := none }
        stride := 12 }
    color := .flat .pushConstant
    matrix := .mvp .pushConstant }

/-- C9 witness: determinism applied at a concrete spec, which moreover
does generate a source string. -/
theorem mcvk_C9_witness :
    (ShaderSpec.getVertexShaderCode c9spec = ShaderSpec.getVertexShaderCode c9spec ∧
     ShaderSpec.getFragmentShaderCode c9spec = ShaderSpec.getFragmentShaderCode c9spec) ∧
    (ShaderSpec.getVertexShaderCode c9spec).isSome = true ∧
    (ShaderSpec.getFragmentShaderCode c9spec).isSome = true :=
  ⟨mcvk_C9 c9spec c9spec rfl, rfl, rfl⟩

lemma assocGet_assocPut_self {α β : Type} [DecidableEq α]
    (l : List (α × β)) (k : α) (v : β) :
    assocGet (assocPut l k v) k = some v := by
  induction l with
  | nil => simp [assocGet, assocPut]
  | cons hd tl ih =>
    obtain ⟨a, b⟩ := hd
    by_cases hak : a = k
    · subst hak
      simp [assocGet, assocPut]
    · simp [assocGet, assocPut, hak, ih]

/-- After any `compile` call returning pipeline `p`, the cache binds the
spec to `p` (a hit leaves the binding in place, a miss inserts it). -/
lemma compile_cache_binding (alive : Nat → Bool) (c : PipelineCompiler)
    (spec : DynamicPipelineSpec) (p : Nat) (c1 : PipelineCompiler)
    (h : PipelineCompiler.compile alive c spec = (p, c1)) :
    assocGet c1.cache spec = some p := by
  unfold PipelineCompiler.compile at h
  cases hc : c.cacheGet alive spec with
  | some q =>
    rw [hc] at h
    obtain ⟨hp, hc1⟩ := Prod.mk.injEq .. ▸ h
    subst hp
    subst hc1
    unfold PipelineCompiler.cacheGet at hc
    cases hg : assocGet c.cache spec with
    | some r =>
      rw [hg] at hc
      by_cases ha : alive r = true
      · simp [ha] at hc
        rw [hc]
      · simp [ha] at hc
    | none => rw [hg] at hc; cases hc
  | none =>
    rw [hc] at h
    obtain ⟨hp, hc1⟩ := Prod.mk.injEq .. ▸ h
    subst hc1
    subst hp
    exact assocGet_assocPut_self ..

/-- C1: if `compile(s1)` returned pipeline `p` and `p` is still referenced
(its weak cache entry is alive) when `compile` is called again on a
structurally equal spec, the second call returns the cached pipeline with
the compiler state unchanged — in particular no new shader compilation and
no new pipeline build happen. -/
theorem mcvk_C1 (alive1 alive2 : Nat → Bool) (c : PipelineCompiler)
    (spec : DynamicPipelineSpec) (p : Nat) (c1 : PipelineCompiler)
    (h : PipelineCompiler.compile alive1 c spec = (p, c1))
    (halive : alive2 p = true) :
    PipelineCompiler.compile alive2 c1 spec = (p, c1) ∧
    (PipelineCompiler.compile alive2 c1 spec).2.shaderCompiles = c1.shaderCompiles ∧
    (PipelineCompiler.compile alive2 c1 spec).2.pipelineBuilds = c1.pipelineBuilds := by
  have hb := compile_cache_binding alive1 c spec p c1 h
  have hcg : c1.cacheGet alive2 spec = some p := by
    unfold PipelineCompiler.cacheGet
    rw [hb]
    simp [halive]
  have heq : PipelineCompiler.compile alive2 c1 spec = (p, c1) := by
    unfold PipelineCompiler.compile
    rw [hcg]
  exact ⟨heq, by rw [heq], by rw [heq]⟩

def emptyPipelineCompiler : PipelineCompiler :=
  { cache := [], vertexShaders := [], fragmentShaders := []
    nextId := 0, shaderCompiles := 0, pipelineBuilds := 0 }

/-- A concrete pipeline spec for the C1 witness. -/
def c1pspec : DynamicPipelineSpec :=
  { draw_mode := .tri
    vertex_buffer :=
      { fields :=
          { position := some { data_type := .f32, num_elements := 3, offset := 0 }
            normal := none, color := none, texCoord := none, texIndex := none }
        stride := 12 }
    color := .flat .pushConstant
    matrix := .mvp .pushConstant
    rasterization := DynamicPipelineRasterization.default }

/-- Compiler state after the first `compile` on `c1pspec` from the empty
state: both shader modules compiled (ids 0 and 1), pipeline id 2 cached. -/
def c1AfterFirst : PipelineCompiler :=
  { cache := [(c1pspec, 2)]
    vertexShaders := [(ShaderSpec.ofPipelineSpec c1pspec, 0)]
    fragmentShaders := [(ShaderSpec.ofPipelineSpec c1pspec, 1)]
    nextId := 3, shaderCompiles := 2, pipelineBuilds := 1 }

/-- C1 witness: a concrete first compile followed by a second compile on
an equal spec while the pipeline is alive. -/
theorem mcvk_C1_witness :
    PipelineCompiler.compile (fun _ => true) c1AfterFirst c1pspec = (2, c1AfterFirst) ∧
    (PipelineCompiler.compile (fun _ => true) c1AfterFirst c1pspec).2.shaderCompiles =
      c1AfterFirst.shaderCompiles ∧
    (PipelineCompiler.compile (fun _ => true) c1AfterFirst c1pspec).2.pipelineBuilds =
      c1AfterFirst.pipelineBuilds :=
  mcvk_C1 (fun _ => true) (fun _ => true) emptyPipelineCompiler c1pspec 2
    c1AfterFirst rfl rfl

lemma withActiveStack_cache (s s' : RenderInsnAssembler)
    (f : MatrixStack → Option MatrixStack)
    (h : s.withActiveStack f = some s') :
    s'.activeMvpCache = s.activeMvpCache := by
  unfold RenderInsnAssembler.withActiveStack at h
  split at h
  · obtain ⟨st', _, rfl⟩ := Option.map_eq_some'.mp h
    rfl
  · cases h

/-- Every matrix-mutation instruction dispatches, after the MVP-cache
invalidation prelude, to a stack operation on the active stack. -/
lemma feedStep_mutation_exists (R : RotationFn) (s : RenderInsnAssembler)
    (insn : RenderInstruction) (hmut : insn.isMatrixMutation = true) :
    ∃ f, feedStep R s insn =
      (if s.activeMatrix == PROJECTION_MATRIX_IDX ||
          s.activeMatrix == MODELVIEW_MATRIX_IDX
       then { s with activeMvpCache := none } else s).withActiveStack f := by
  cases insn
  case pushMatrix =>
    exact ⟨fun st => st.push, by simp [feedStep, RenderInstruction.isMatrixMutation]⟩
  case popMatrix =>
    exact ⟨fun st => some st.pop, by simp [feedStep, RenderInstruction.isMatrixMutation]⟩
  case loadIdentity =>
    exact ⟨fun st => st.loadIdentity, by simp [feedStep, RenderInstruction.isMatrixMutation]⟩
  case ortho data =>
    exact ⟨fun st => st.ortho data, by simp [feedStep, RenderInstruction.isMatrixMutation]⟩
  case translate v =>
    exact ⟨fun st => st.translate v, by simp [feedStep, RenderInstruction.isMatrixMutation]⟩
  case rotate a ax =>
    exact ⟨fun st => st.rotate R ax a, by simp [feedStep, RenderInstruction.isMatrixMutation]⟩
  case scale v =>
    exact ⟨fun st => st.scale v, by simp [feedStep, RenderInstruction.isMatrixMutation]⟩
  all_goals simp [RenderInstruction.isMatrixMutation] at hmut

lemma mutation_cache_texcolor (R : RotationFn) (s : RenderInsnAssembler)
    (insn : RenderInstruction) (s' : RenderInsnAssembler)
    (h : feedStep R s insn = some s') (hmut : insn.isMatrixMutation = true)
    (hsel : s.activeMatrix = TEXTURE_MATRIX_IDX ∨ s.activeMatrix = COLOR_MATRIX_IDX) :
    s'.activeMvpCache = s.activeMvpCache := by
  obtain ⟨f, hf⟩ := feedStep_mutation_exists R s insn hmut
  rw [hf] at h
  have hcond : (s.activeMatrix == PROJECTION_MATRIX_IDX ||
      s.activeMatrix == MODELVIEW_MATRIX_IDX) = false := by
    rcases hsel with hs | hs <;>
      simp [hs, PROJECTION_MATRIX_IDX, MODELVIEW_MATRIX_IDX,
        TEXTURE_MATRIX_IDX, COLOR_MATRIX_IDX]
  rw [hcond] at h
  simp only [Bool.false_eq_true, if_false] at h
  exact withActiveStack_cache s s' f h

lemma mutation_cache_mvproj (R : RotationFn) (s : RenderInsnAssembler)
    (insn : RenderInstruction) (s' : RenderInsnAssembler)
    (h : feedStep R s insn = some s') (hmut : insn.isMatrixMutation = true)
    (hsel : s.activeMatrix = MODELVIEW_MATRIX_IDX ∨
            s.activeMatrix = PROJECTION_MATRIX_IDX) :
    s'.activeMvpCache = none := by
  obtain ⟨f, hf⟩ := feedStep_mutation_exists R s insn hmut
  rw [hf] at h
  have hcond : (s.activeMatrix == PROJECTION_MATRIX_IDX ||
      s.activeMatrix == MODELVIEW_MATRIX_IDX) = true := by
    rcases hsel with hs | hs <;>
      simp [hs, PROJECTION_MATRIX_IDX, MODELVIEW_MATRIX_IDX]
  rw [hcond] at h
  simp only [if_true] at h
  exact withActiveStack_cache _ s' f h

lemma matrixMode_cache (R : RotationFn) (s : RenderInsnAssembler)
    (mode : MatrixMode) (s' : RenderInsnAssembler)
    (h : feedStep R s (.matrixMode mode) = some s') :
    s'.activeMvpCache = s.activeMvpCache := by
  simp only [feedStep, RenderInstruction.isMatrixMutation, Bool.false_and,
    Bool.false_eq_true, if_false, Option.some.injEq] at h
  rw [← h]

lemma getMvp_cached (s : RenderInsnAssembler) (m : Mat4)
    (h : s.activeMvpCache = some m) : s.getMvpMatrix = some (m, s) := by
  unfold RenderInsnAssembler.getMvpMatrix
  rw [h]

lemma getMvp_recompute (s : RenderInsnAssembler)
    (h : s.activeMvpCache = none) (p mv : Mat4)
    (hp : (s.matrixStacks 1).get = some p)
    (hm : (s.matrixStacks 0).get = some mv) :
    s.getMvpMatrix =
      some (Mat4.mul p mv, { s with activeMvpCache := some (Mat4.mul p mv) }) := by
  unfold RenderInsnAssembler.getMvpMatrix
  rw [h]
  simp [hp, hm]

/-- C5: once the MVP is memoized, feeding a matrix-mutation instruction
while the texture or color matrix mode is selected leaves the memo intact
(and `get_mvp_matrix` — used by the next draw — returns the memoized value
with no recomputation); feeding it while the model-view or projection mode
is selected clears the memo, so the next draw recomputes
`projection * model-view`; and a matrix-mode select instruction by itself
never touches the memo. -/
theorem mcvk_C5 (R : RotationFn) (insn : RenderInstruction)
    (s s' : RenderInsnAssembler) (h : feedStep R s insn = some s') :
    (insn.isMatrixMutation = true →
      (s.activeMatrix = TEXTURE_MATRIX_IDX ∨ s.activeMatrix = COLOR_MATRIX_IDX) →
      s'.activeMvpCache = s.activeMvpCache ∧
      ∀ m, s.activeMvpCache = some m → s'.getMvpMatrix = some (m, s')) ∧
    (insn.isMatrixMutation = true →
      (s.activeMatrix = MODELVIEW_MATRIX_IDX ∨ s.activeMatrix = PROJECTION_MATRIX_IDX) →
      s'.activeMvpCache = none ∧
      ∀ p mv, (s'.matrixStacks 1).get = some p →
        (s'.matrixStacks 0).get = some mv →
        s'.getMvpMatrix =
          some (Mat4.mul p mv, { s' with activeMvpCache := some (Mat4.mul p mv) })) ∧
    (∀ mode, insn = .matrixMode mode → s'.activeMvpCache = s.activeMvpCache) := by
  refine ⟨?_, ?_, ?_⟩
  · intro hmut hsel
    have hc := mutation_cache_texcolor R s insn s' h hmut hsel
    exact ⟨hc, fun m hm => getMvp_cached s' m (hc.trans hm)⟩
  · intro hmut hsel
    have hc := mutation_cache_mvproj R s insn s' h hmut hsel
    exact ⟨hc, fun p mv hp hm => getMvp_recompute s' hc p mv hp hm⟩
  · intro mode hmode
    subst hmode
    exact matrixMode_cache R s mode s' h

/-- A state with the texture matrix selected and a memoized MVP. -/
def c5s : RenderInsnAssembler :=
  { RenderInsnAssembler.new with
    activeMatrix := TEXTURE_MATRIX_IDX
    activeMvpCache := some Mat4.id }

/-- The state after translating the texture stack of `c5s`. -/
def c5s' : RenderInsnAssembler :=
  (feedStep rotationStub c5s (.translate ⟨1,0,0⟩)).getD RenderInsnAssembler.new

/-- C5 witness: translating while the texture stack is selected keeps the
memoized MVP, and the next `get_mvp_matrix` returns it unchanged. -/
theorem mcvk_C5_witness : c5s'.getMvpMatrix = some (Mat4.id, c5s') :=
  ((mcvk_C5 rotationStub (.translate ⟨1,0,0⟩) c5s c5s' rfl).1 rfl
    (Or.inl rfl)).2 Mat4.id rfl

lemma slice_length (data : List Nat) (start len : Nat)
    (h : start + len ≤ data.length) : (slice data start len).length = len := by
  simp [slice, List.length_take, List.length_drop]
  omega

lemma slice_getElem? (data : List Nat) (start len j : Nat) (hj : j < len) :
    (slice data start len)[j]? = data[start + j]? := by
  simp [slice, List.getElem?_take, hj, List.getElem?_drop]

lemma flatMap_uniform_length (l : List Nat) (f : Nat → List Nat) (n : Nat)
    (hf : ∀ b ∈ l, (f b).length = n) :
    (l.flatMap f).length = l.length * n := by
  induction l with
  | nil => simp
  | cons b tl ih =>
    simp only [List.flatMap_cons, List.length_append, List.length_cons]
    rw [hf b (List.mem_cons_self b tl), ih (fun x hx => hf x (List.mem_cons_of_mem b hx))]
    ring

lemma flatMap_uniform_getElem? (l : List Nat) (f : Nat → List Nat) (n : Nat)
    (hf : ∀ b ∈ l, (f b).length = n) :
    ∀ i j, (hi : i < l.length) → j < n →
      (l.flatMap f)[i * n + j]? = (f (l.get ⟨i, hi⟩))[j]? := by
  induction l with
  | nil => intro i j hi _; exact absurd hi (by simp)
  | cons b tl ih =>
    intro i j hi hj
    cases i with
    | zero =>
      simp only [List.flatMap_cons, Nat.zero_mul, Nat.zero_add]
      rw [List.getElem?_append, if_pos]
      · rfl
      · rw [hf b (List.mem_cons_self b tl)]; exact hj
    | succ i =>
      simp only [List.flatMap_cons]
      have hlen : (f b).length = n := hf b (List.mem_cons_self b tl)
      have hidx : (i + 1) * n + j = (f b).length + (i * n + j) := by
        rw [hlen]; ring
      rw [hidx, List.getElem?_append_right (Nat.le_add_right _ _),
        Nat.add_sub_cancel_left]
      exact ih (fun x hx => hf x (List.mem_cons_of_mem b hx)) i j
        (Nat.lt_of_succ_lt_succ hi) hj

/-- The spec's P3 source buffer: 20 bytes `0..19` read with stride 4. -/
def c8src : List Nat := List.range 20

/-- The 15-byte concatenation of the five 3-byte payloads of `c8src`. -/
def c8packed : List Nat := [0,1,2,4,5,6,8,9,10,12,13,14,16,17,18]

/-- C8: `addPointerArray` de-interleaves strided input.  (1) A zero stride
is treated as tightly packed (`stride = element_count * type_size`).
(2) Whenever ingestion succeeds, it stores `vec_count = byte_length /
stride` vectors, the output is exactly `vec_count * (n*t)` bytes, and byte
`j` of vector `i` comes from source offset `i*stride + j` — all padding
dropped.  (3) The spec's concrete example: stride 4, size 3, type u8,
20-byte source gives the 15-byte concatenation of the five payloads. -/
theorem mcvk_C8 :
    (∀ (size : Nat) (t : PointerDataType) (data : List Nat),
      addPointerArray size 0 t data = addPointerArray size (size * t.size) t data) ∧
    (∀ (size stride : Nat) (t : PointerDataType) (data : List Nat)
      (vc : Nat) (out : List Nat),
      addPointerArray size stride t data = some (vc, out) →
      vc = data.length / resolvedStride size stride t ∧
      out.length = vc * (size * t.size) ∧
      ∀ i j, i < vc → j < size * t.size →
        out[i * (size * t.size) + j]? =
          data[i * resolvedStride size stride t + j]?) ∧
    addPointerArray 3 4 .u8 c8src = some (5, c8packed) := by
  refine ⟨?_, ?_, by decide⟩
  · intro size t data
    by_cases h4 : size > 4
    · simp [addPointerArray, h4]
    · simp [addPointerArray, h4, resolvedStride, ite_self]
  · intro size stride t data vc out h
    unfold addPointerArray at h
    rw [if_neg ?hng] at h
    case hng => exact fun hx => by simp [addPointerArray, hx] at h
    set sA := resolvedStride size stride t with hsA
    set vbs := size * t.size with hvbs
    by_cases hz : sA = 0
    · rw [if_pos hz] at h; cases h
    · rw [if_neg hz] at h
      dsimp only [] at h
      split at h
      case neg.isTrue habd =>
        have hpair := Option.some.inj h
        have hvc : data.length / sA = vc := congrArg Prod.fst hpair
        have hout : ((List.range (data.length / sA)).flatMap fun i =>
            slice data (i * sA) vbs) = out := congrArg Prod.snd hpair
        have hbd : ∀ i, i < data.length / sA → i * sA + vbs ≤ data.length := by
          intro i hi
          exact of_decide_eq_true (List.all_eq_true.mp habd i (List.mem_range.mpr hi))
        subst hvc
        subst hout
        refine ⟨rfl, ?_, ?_⟩
        · rw [flatMap_uniform_length _ _ vbs ?hf, List.length_range]
          case hf =>
            intro b hb
            exact slice_length data (b * sA) vbs (hbd b (List.mem_range.mp hb))
        · intro i j hi hj
          rw [flatMap_uniform_getElem? _ _ vbs ?hf2 i j (by simpa using hi) hj]
          case hf2 =>
            intro b hb
            exact slice_length data (b * sA) vbs (hbd b (List.mem_range.mp hb))
          rw [show (List.range (data.length / sA)).get ⟨i, by simpa using hi⟩ = i from
            List.getElem_range i _]
          rw [slice_getElem? data (i * sA) vbs j hj]
      case neg.isFalse => cases h

/-- C8 witness: the indexed-copy property applied at the spec's concrete
example (vector 2, byte 1 of the packed output comes from source offset 9),
together with the output length. -/
theorem mcvk_C8_witness : c8packed[7]? = c8src[9]? ∧ c8packed.length = 15 := by
  have h := mcvk_C8.2.1 3 4 .u8 c8src 5 c8packed rfl
  exact ⟨h.2.2 2 1 (by decide) (by decide), h.2.1⟩

lemma getMvp_commands (s : RenderInsnAssembler) (m : Mat4)
    (s1 : RenderInsnAssembler) (h : s.getMvpMatrix = some (m, s1)) :
    s1.commands = s.commands ∧ s1.log = s.log := by
  unfold RenderInsnAssembler.getMvpMatrix at h
  cases hc : s.activeMvpCache with
  | some mm =>
    rw [hc] at h
    obtain ⟨_, h2⟩ := Prod.mk.injEq .. ▸ Option.some.inj h
    rw [← h2]
    exact ⟨rfl, rfl⟩
  | none =>
    rw [hc] at h
    cases hp : (s.matrixStacks 1).get with
    | none => rw [hp] at h; cases h
    | some p =>
      rw [hp] at h
      cases hm : (s.matrixStacks 0).get with
      | none => rw [hm] at h; cases h
      | some mv =>
        rw [hm] at h
        obtain ⟨_, h2⟩ := Prod.mk.injEq .. ▸ Option.some.inj h
        rw [← h2]
        exact ⟨rfl, rfl⟩

lemma emitDraw_commands (s : RenderInsnAssembler) (mode : DrawMode)
    (first count : Nat) (desc : VertexBufferLayout) (buffer : Buffer)
    (color : ColorMode) (logs : List LogMsg) (s' : RenderInsnAssembler)
    (h : s.emitDraw mode first count desc buffer color logs = some s') :
    ∃ pipeline push_constants,
      s'.commands = s.commands ++
        [.bindDynamicGraphicsPipeline pipeline push_constants,
         .draw first count buffer] := by
  unfold RenderInsnAssembler.emitDraw at h
  cases hmvp : s.getMvpMatrix with
  | none => rw [hmvp] at h; cases h
  | some a =>
    obtain ⟨mvp, s1⟩ := a
    rw [hmvp] at h
    simp only [Option.some_bind, Option.some.injEq] at h
    obtain ⟨hcmd, _⟩ := getMvp_commands s mvp s1 hmvp
    refine ⟨{ draw_mode := mode, vertex_buffer := desc, matrix := .mvp .pushConstant,
              color := color, rasterization := DynamicPipelineRasterization.default },
            { mvp := some mvp,
              color := if color = ColorMode.flat .pushConstant then some s.activeColor
                       else none }, ?_⟩
    rw [← h, hcmd]

/-- C10: whenever `draw_arrays` emits commands (position array enabled and
assembly succeeds), it appends exactly one `BindDynamicGraphicsPipeline`
immediately followed by exactly one `Draw`, and the `Draw` carries
`start_vertex = first` and `vertex_count = count` verbatim — they are not
clamped to the vertex count of the packed buffer it carries (which is the
buffer produced by `assemble_buffer`, possibly smaller after length
truncation). -/
theorem mcvk_C10 (s s' : RenderInsnAssembler) (mode : DrawMode)
    (first count : Nat)
    (hEnabled : (s.clientArrays (getClientArrayIndex .vertex)).enabled = true)
    (h : s.drawArrays mode first count = some s') :
    ∃ pipeline push_constants buffer,
      s'.commands = s.commands ++
        [.bindDynamicGraphicsPipeline pipeline push_constants,
         .draw first count buffer] ∧
      ∃ desc logs, s.assembleBuffer = some (desc, buffer, logs) := by
  unfold RenderInsnAssembler.drawArrays at h
  rw [hEnabled] at h
  simp only [Bool.not_true, Bool.false_eq_true, if_false] at h
  cases hab : s.assembleBuffer with
  | none => rw [hab] at h; cases h
  | some triple =>
    obtain ⟨desc, buffer, logs⟩ := triple
    rw [hab] at h
    simp only [Option.bind_eq_bind, Option.some_bind] at h
    split at h
    · split at h
      · cases h
      · split at h
        · obtain ⟨p, pc, hc⟩ := emitDraw_commands _ _ _ _ _ _ _ _ _ h
          exact ⟨p, pc, buffer, hc, desc, logs, rfl⟩
        · obtain ⟨p, pc, hc⟩ := emitDraw_commands _ _ _ _ _ _ _ _ _ h
          exact ⟨p, pc, buffer, hc, desc, logs, rfl⟩
      · obtain ⟨p, pc, hc⟩ := emitDraw_commands _ _ _ _ _ _ _ _ _ h
        exact ⟨p, pc, buffer, hc, desc, logs, rfl⟩
    · obtain ⟨p, pc, hc⟩ := emitDraw_commands _ _ _ _ _ _ _ _ _ h
      exact ⟨p, pc, buffer, hc, desc, logs, rfl⟩

/-- A state with a 7-vertex float color array and a 10-vertex float
position array, both enabled with data (the spec's P8 scenario). -/
def ten7State : RenderInsnAssembler :=
  { RenderInsnAssembler.new with clientArrays := fun i =>
      if i.val = 0 then
        { enabled := true, vertexCount := 7, dataType := .f32
          elementCount := 3, data := some (List.replicate 84 9) }
      else if i.val = 7 then
        { enabled := true, vertexCount := 10, dataType := .f32
          elementCount := 3, data := some (List.replicate 120 7) }
      else ClientArray.new }

/-- The state after `draw_arrays(Tri, 0, 10)` on `ten7State`. -/
def ten7Drawn : RenderInsnAssembler :=
  (ten7State.drawArrays .tri 0 10).getD RenderInsnAssembler.new

set_option maxRecDepth 100000 in
/-- C10 witness: drawing 10 vertices over the truncated 7-vertex packed
buffer still emits `Draw` with `vertex_count = 10`, while the carried
buffer holds only `7 * 24` bytes. -/
theorem mcvk_C10_witness :
    (∃ pipeline push_constants buffer,
      ten7Drawn.commands = ten7State.commands ++
        [.bindDynamicGraphicsPipeline pipeline push_constants,
         .draw 0 10 buffer] ∧
      ∃ desc logs, ten7State.assembleBuffer = some (desc, buffer, logs)) ∧
    (ten7State.assembleBuffer).map (fun r => r.2.1.byteLength) = some 168 :=
  ⟨mcvk_C10 ten7State ten7Drawn .tri 0 10 rfl rfl, rfl⟩

/-- An array participates in the vertex-count reconciliation iff it is
enabled, of a supported kind, and has data. -/
def countedB (s : RenderInsnAssembler) (i : Fin 8) : Bool :=
  (s.clientArrays i).enabled && (getClientArrayType i).isSupported &&
    ((s.clientArrays i).data).isSome

def mergeCount (vo : Option Nat) (c : Nat) : Option Nat :=
  match vo with
  | none => some c
  | some vc => some (if c < vc then c else vc)

lemma reconcileCount_vc (nm : String) (cnt : Nat) (acc : LayoutAcc) :
    (reconcileCount nm cnt acc).vertexCount = mergeCount acc.vertexCount cnt := by
  cases hvo : acc.vertexCount with
  | none => simp [reconcileCount, mergeCount, hvo]
  | some vc =>
    by_cases hne : cnt = vc
    · subst hne
      simp [reconcileCount, mergeCount, hvo]
    · simp [reconcileCount, mergeCount, hvo, hne]

lemma reconcileCount_logs_mono (nm : String) (cnt : Nat) (acc : LayoutAcc)
    (w : LogMsg) (hw : w ∈ acc.logs) :
    w ∈ (reconcileCount nm cnt acc).logs := by
  cases hvo : acc.vertexCount with
  | none => simp [reconcileCount, hvo, hw]
  | some vc =>
    by_cases hne : cnt = vc
    · subst hne
      simp [reconcileCount, hvo, hw]
    · simp [reconcileCount, hvo, hne, hw]

lemma reconcileCount_warn (nm : String) (cnt : Nat) (acc : LayoutAcc)
    (vc : Nat) (hvo : acc.vertexCount = some vc) (hne : cnt ≠ vc) :
    ∃ op, LogMsg.warnLengthMismatch nm cnt vc op ∈ (reconcileCount nm cnt acc).logs := by
  refine ⟨if cnt < vc then "pruned the other arrays" else "pruned this array", ?_⟩
  simp [reconcileCount, hvo, hne]

lemma appendField_keeps (acc : LayoutAcc) (a : ClientArray)
    (t : PointerArrayType) (acc' : LayoutAcc)
    (h : appendField acc a t = some acc') :
    acc'.vertexCount = acc.vertexCount ∧ acc'.logs = acc.logs := by
  unfold appendField at h
  cases hfa : VertexInputType.fromArray t with
  | none => rw [hfa] at h; cases h
  | some ft =>
    rw [hfa] at h
    dsimp only [] at h
    split at h
    · have h2 := Option.some.inj h
      rw [← h2]
      exact ⟨rfl, rfl⟩
    · have h2 := Option.some.inj h
      rw [← h2]
      exact ⟨rfl, rfl⟩

lemma layoutStep_shape (s : RenderInsnAssembler) (acc : LayoutAcc) (i : Fin 8)
    (acc' : LayoutAcc) (h : layoutStep s acc i = some acc') :
    (countedB s i = false ∧ acc'.vertexCount = acc.vertexCount ∧
      (∀ w ∈ acc.logs, w ∈ acc'.logs)) ∨
    (countedB s i = true ∧
      acc'.vertexCount =
        (reconcileCount (getClientArrayName i) (s.clientArrays i).vertexCount acc).vertexCount ∧
      (∀ w ∈ (reconcileCount (getClientArrayName i) (s.clientArrays i).vertexCount acc).logs,
        w ∈ acc'.logs)) := by
  unfold layoutStep at h
  dsimp only [] at h
  cases hEn : (s.clientArrays i).enabled with
  | false =>
    rw [hEn] at h
    simp only [Bool.not_false, if_true, Option.some.injEq] at h
    subst h
    exact Or.inl ⟨by simp [countedB, hEn], rfl, fun w hw => hw⟩
  | true =>
    rw [hEn] at h
    simp only [Bool.not_true, Bool.false_eq_true, if_false] at h
    cases hSup : (getClientArrayType i).isSupported with
    | false =>
      rw [hSup] at h
      simp only [Bool.not_false, if_true, Option.some.injEq] at h
      subst h
      refine Or.inl ⟨by simp [countedB, hSup], rfl, fun w hw => ?_⟩
      simp only [List.mem_append]
      exact Or.inl hw
    | true =>
      rw [hSup] at h
      simp only [Bool.not_true, Bool.false_eq_true, if_false] at h
      cases hD : (s.clientArrays i).data with
      | none =>
        rw [hD] at h
        simp only [Option.some.injEq] at h
        subst h
        refine Or.inl ⟨by simp [countedB, hD], rfl, fun w hw => ?_⟩
        simp only [List.mem_append]
        exact Or.inl hw
      | some d =>
        rw [hD] at h
        dsimp only [] at h
        refine Or.inr ⟨by simp [countedB, hEn, hSup, hD], ?_⟩
        split at h
        · -- texcoord
          split at h
          · simp only [Option.some.injEq] at h
            subst h
            refine ⟨rfl, fun w hw => ?_⟩
            simp only [List.mem_append]
            exact Or.inl hw
          · cases hT : s.getActiveTexture with
            | none => rw [hT] at h; cases h
            | some u =>
              rw [hT] at h
              cases u with
              | none =>
                dsimp only [] at h
                simp only [Option.some.injEq] at h
                subst h
                refine ⟨rfl, fun w hw => ?_⟩
                simp only [List.mem_append]
                exact Or.inl hw
              | some tex =>
                dsimp only [] at h
                split at h
                · simp only [Option.some.injEq] at h
                  subst h
                  refine ⟨rfl, fun w hw => ?_⟩
                  simp only [List.mem_append]
                  exact Or.inl hw
                · obtain ⟨hvc, hlg⟩ := appendField_keeps _ _ _ _ h
                  exact ⟨hvc, fun w hw => hlg ▸ hw⟩
        · obtain ⟨hvc, hlg⟩ := appendField_keeps _ _ _ _ h
          exact ⟨hvc, fun w hw => hlg ▸ hw⟩



lemma foldlM_layout_logs_mono (s : RenderInsnAssembler) :
    ∀ (l : List (Fin 8)) (acc acc' : LayoutAcc),
      l.foldlM (layoutStep s) acc = some acc' → ∀ w ∈ acc.logs, w ∈ acc'.logs := by
  intro l
  induction l with
  | nil =>
    intro acc acc' h w hw
    simp only [List.foldlM_nil] at h
    exact (Option.some.inj h) ▸ hw
  | cons i tl ih =>
    intro acc acc' h w hw
    rw [List.foldlM_cons] at h
    cases hs : layoutStep s acc i with
    | none => rw [hs] at h; cases h
    | some mid =>
      rw [hs] at h
      simp only [Option.bind_eq_bind, Option.some_bind] at h
      have hmid : w ∈ mid.logs := by
        rcases layoutStep_shape s acc i mid hs with ⟨_, _, hm⟩ | ⟨_, _, hm⟩
        · exact hm w hw
        · exact hm w (reconcileCount_logs_mono _ _ _ w hw)
      exact ih mid acc' h w hmid

lemma foldlM_layout_vc (s : RenderInsnAssembler) :
    ∀ (l : List (Fin 8)) (acc acc' : LayoutAcc),
      l.foldlM (layoutStep s) acc = some acc' →
      acc'.vertexCount = l.foldl
        (fun vo i => if countedB s i then mergeCount vo (s.clientArrays i).vertexCount else vo)
        acc.vertexCount := by
  intro l
  induction l with
  | nil =>
    intro acc acc' h
    simp only [List.foldlM_nil] at h
    rw [← Option.some.inj h]
    rfl
  | cons i tl ih =>
    intro acc acc' h
    rw [List.foldlM_cons] at h
    cases hs : layoutStep s acc i with
    | none => rw [hs] at h; cases h
    | some mid =>
      rw [hs] at h
      simp only [Option.bind_eq_bind, Option.some_bind] at h
      rw [List.foldl_cons, ih mid acc' h]
      rcases layoutStep_shape s acc i mid hs with ⟨hcf, hvc, _⟩ | ⟨hct, hvc, _⟩
      · rw [hvc, hcf]
        simp
      · rw [hvc, reconcileCount_vc, hct]
        simp

lemma foldl_merge_spec (p : Fin 8 → Bool) (cnt : Fin 8 → Nat) :
    ∀ (l : List (Fin 8)) (vo : Option Nat) (v : Nat),
      l.foldl (fun vo i => if p i then mergeCount vo (cnt i) else vo) vo = some v →
      ((vo = some v ∨ ∃ i ∈ l, p i = true ∧ cnt i = v) ∧
       (∀ w, vo = some w → v ≤ w) ∧
       (∀ i ∈ l, p i = true → v ≤ cnt i)) := by
  intro l
  induction l with
  | nil =>
    intro vo v h
    simp only [List.foldl_nil] at h
    refine ⟨Or.inl h, fun w hw => ?_, by simp⟩
    rw [h] at hw
    exact (Option.some.inj hw) ▸ Nat.le_refl v
  | cons i tl ih =>
    intro vo v h
    rw [List.foldl_cons] at h
    by_cases hp : p i = true
    · rw [if_pos hp] at h
      obtain ⟨hmem, hle, hall⟩ := ih (mergeCount vo (cnt i)) v h
      refine ⟨?_, ?_, ?_⟩
      · rcases hmem with hm | ⟨j, hj, hpj, hcj⟩
        · cases hvo : vo with
          | none =>
            rw [hvo] at hm
            exact Or.inr ⟨i, List.mem_cons_self i tl, hp, Option.some.inj hm⟩
          | some u =>
            rw [hvo] at hm
            have hv := Option.some.inj hm
            by_cases hlt : cnt i < u
            · rw [if_pos hlt] at hv
              exact Or.inr ⟨i, List.mem_cons_self i tl, hp, hv⟩
            · rw [if_neg hlt] at hv
              exact Or.inl (congrArg some hv)
        · exact Or.inr ⟨j, List.mem_cons_of_mem _ hj, hpj, hcj⟩
      · intro w hw
        have hv := hle (if cnt i < w then cnt i else w) (by rw [hw]; rfl)
        by_cases hlt : cnt i < w
        · rw [if_pos hlt] at hv
          omega
        · rw [if_neg hlt] at hv
          omega
      · intro j hj hpj
        rcases List.mem_cons.mp hj with rfl | hj'
        · cases hvo : vo with
          | none => exact hle (cnt j) (by rw [hvo]; rfl)
          | some u =>
            have hv := hle (if cnt j < u then cnt j else u) (by rw [hvo]; rfl)
            by_cases hlt : cnt j < u
            · rw [if_pos hlt] at hv
              exact hv
            · rw [if_neg hlt] at hv
              omega
        · exact hall j hj' hpj
    · rw [if_neg hp] at h
      obtain ⟨hmem, hle, hall⟩ := ih vo v h
      refine ⟨?_, hle, ?_⟩
      · rcases hmem with hm | ⟨j, hj, hpj, hcj⟩
        · exact Or.inl hm
        · exact Or.inr ⟨j, List.mem_cons_of_mem _ hj, hpj, hcj⟩
      · intro j hj hpj
        rcases List.mem_cons.mp hj with rfl | hj'
        · exact absurd hpj hp
        · exact hall j hj' hpj



lemma layoutStep_warn (s : RenderInsnAssembler) (acc : LayoutAcc) (i : Fin 8)
    (mid : LayoutAcc) (v : Nat) (hs : layoutStep s acc i = some mid)
    (hc : countedB s i = true) (hvo : acc.vertexCount = some v)
    (hne : (s.clientArrays i).vertexCount ≠ v) :
    ∃ a b c op, LogMsg.warnLengthMismatch a b c op ∈ mid.logs := by
  rcases layoutStep_shape s acc i mid hs with ⟨hcf, _, _⟩ | ⟨_, _, hmono⟩
  · rw [hc] at hcf; cases hcf
  · obtain ⟨op, hop⟩ := reconcileCount_warn (getClientArrayName i)
      (s.clientArrays i).vertexCount acc v hvo hne
    exact ⟨_, _, _, op, hmono _ hop⟩

lemma foldlM_warnfree_some (s : RenderInsnAssembler) :
    ∀ (l : List (Fin 8)) (acc acc' : LayoutAcc) (v : Nat),
      l.foldlM (layoutStep s) acc = some acc' →
      (∀ a b c op, LogMsg.warnLengthMismatch a b c op ∉ acc'.logs) →
      acc.vertexCount = some v →
      (∀ i ∈ l, countedB s i = true → (s.clientArrays i).vertexCount = v) := by
  intro l
  induction l with
  | nil => intro acc acc' v _ _ _ i hi; exact absurd hi (by simp)
  | cons i0 tl ih =>
    intro acc acc' v h hw hv
    rw [List.foldlM_cons] at h
    cases hs : layoutStep s acc i0 with
    | none => rw [hs] at h; cases h
    | some mid =>
      rw [hs] at h
      simp only [Option.bind_eq_bind, Option.some_bind] at h
      intro i hi hci
      rcases List.mem_cons.mp hi with rfl | hi'
      · -- head: if its count differed, a warning would be in mid.logs, hence in acc'.logs
        by_contra hne
        obtain ⟨a, b, c, op, hop⟩ := layoutStep_warn s acc i mid v hs hci hv hne
        exact hw a b c op (foldlM_layout_logs_mono s tl mid acc' h _ hop)
      · -- tail: mid still carries some v
        have hmid : mid.vertexCount = some v := by
          rcases layoutStep_shape s acc i0 mid hs with ⟨_, hvc, _⟩ | ⟨hct, hvc, _⟩
          · rw [hvc, hv]
          · by_cases hne0 : (s.clientArrays i0).vertexCount = v
            · rw [hvc, reconcileCount_vc, hv, hne0]
              simp [mergeCount]
            · exfalso
              obtain ⟨a, b, c, op, hop⟩ := layoutStep_warn s acc i0 mid v hs hct hv hne0
              exact hw a b c op (foldlM_layout_logs_mono s tl mid acc' h _ hop)
        exact ih mid acc' v h hw hmid i hi' hci

lemma foldlM_warnfree_none (s : RenderInsnAssembler) :
    ∀ (l : List (Fin 8)) (acc acc' : LayoutAcc),
      l.foldlM (layoutStep s) acc = some acc' →
      (∀ a b c op, LogMsg.warnLengthMismatch a b c op ∉ acc'.logs) →
      acc.vertexCount = none →
      ∀ i ∈ l, ∀ j ∈ l, countedB s i = true → countedB s j = true →
        (s.clientArrays i).vertexCount = (s.clientArrays j).vertexCount := by
  intro l
  induction l with
  | nil => intro acc acc' _ _ _ i hi; exact absurd hi (by simp)
  | cons i0 tl ih =>
    intro acc acc' h hw hv i hi j hj hci hcj
    rw [List.foldlM_cons] at h
    cases hs : layoutStep s acc i0 with
    | none => rw [hs] at h; cases h
    | some mid =>
      rw [hs] at h
      simp only [Option.bind_eq_bind, Option.some_bind] at h
      by_cases hc0 : countedB s i0 = true
      · have hmid : mid.vertexCount = some (s.clientArrays i0).vertexCount := by
          rcases layoutStep_shape s acc i0 mid hs with ⟨hcf, _, _⟩ | ⟨_, hvc, _⟩
          · rw [hc0] at hcf; cases hcf
          · rw [hvc, reconcileCount_vc, hv]
            rfl
        have htl := foldlM_warnfree_some s tl mid acc' _ h hw hmid
        have key : ∀ k, k ∈ i0 :: tl → countedB s k = true →
            (s.clientArrays k).vertexCount = (s.clientArrays i0).vertexCount := by
          intro k hk hck
          rcases List.mem_cons.mp hk with rfl | hk'
          · rfl
          · exact htl k hk' hck
        rw [key i hi hci, key j hj hcj]
      · have hmid : mid.vertexCount = none := by
          rcases layoutStep_shape s acc i0 mid hs with ⟨_, hvc, _⟩ | ⟨hct, _, _⟩
          · rw [hvc, hv]
          · exact absurd hct hc0
        rcases List.mem_cons.mp hi with rfl | hi'
        · exact absurd hci hc0
        rcases List.mem_cons.mp hj with rfl | hj'
        · exact absurd hcj hc0
        exact ih mid acc' h hw hmid i hi' j hj' hci hcj

set_option maxRecDepth 100000 in
/-- C6 (amended): the packed vertex count of a successful layout is the
minimum of the vertex counts of all enabled, supported arrays that have
data — which in presence of a texcoord array skipped by the later
texturing checks can be smaller than the minimum over the arrays actually
included in the layout (see the counterexample) — and whenever two such
arrays disagree, a length-mismatch warning is logged.  The concrete P8
scenario: a 10-vertex position array with a 7-vertex color array packs
exactly 7 vertices (a 168 = 7 * 24 byte buffer) and logs exactly one
warning naming the truncated array ("pos"). -/
theorem mcvk_C6 :
    (∀ (s : RenderInsnAssembler) (d : VertexBufferLayout)
       (sl : List VertexBufferSlot) (vc : Nat) (logs : List LogMsg),
      s.getVertexBufferLayout = some (d, sl, vc, logs) →
      ((∃ i : Fin 8, countedB s i = true ∧ (s.clientArrays i).vertexCount = vc) ∧
       (∀ i : Fin 8, countedB s i = true → vc ≤ (s.clientArrays i).vertexCount) ∧
       (∀ i j : Fin 8, countedB s i = true → countedB s j = true →
         (s.clientArrays i).vertexCount ≠ (s.clientArrays j).vertexCount →
         ∃ a b c op, LogMsg.warnLengthMismatch a b c op ∈ logs))) ∧
    (ten7State.getVertexBufferLayout).map
        (fun r => (r.2.2.1, r.1.stride, r.2.2.2)) =
      some (7, 24, [.warnLengthMismatch "pos" 10 7 "pruned this array"]) ∧
    (ten7State.assembleBuffer).map (fun r => r.2.1.byteLength) = some 168 := by
  refine ⟨?_, rfl, rfl⟩
  intro s d sl vc logs h
  unfold RenderInsnAssembler.getVertexBufferLayout at h
  cases hf : (List.finRange 8).foldlM (layoutStep s) LayoutAcc.init with
  | none => rw [hf] at h; cases h
  | some acc =>
    rw [hf] at h
    simp only [Option.bind_eq_bind, Option.some_bind] at h
    cases hva : acc.vertexCount with
    | none => rw [hva] at h; cases h
    | some v =>
      rw [hva] at h
      have hinj := Option.some.inj h
      have hv : v = vc := congrArg (fun r => r.2.2.1) hinj
      have hlogs : acc.logs = logs := congrArg (fun r => r.2.2.2) hinj
      subst hv
      have hfold := foldlM_layout_vc s (List.finRange 8) LayoutAcc.init acc hf
      rw [hva] at hfold
      have hspec := foldl_merge_spec (countedB s)
        (fun i => (s.clientArrays i).vertexCount) (List.finRange 8) none v hfold.symm
      refine ⟨?_, ?_, ?_⟩
      · rcases hspec.1 with hn | ⟨i, _, hpi, hcnti⟩
        · cases hn
        · exact ⟨i, hpi, hcnti⟩
      · intro i hci
        exact hspec.2.2 i (List.mem_finRange i) hci
      · intro i j hci hcj hne
        by_contra hno
        push_neg at hno
        have hnw : ∀ a b c op, LogMsg.warnLengthMismatch a b c op ∉ acc.logs := by
          rw [hlogs]
          intro a b c op hop
          exact hno a b c op hop
        exact hne (foldlM_warnfree_none s (List.finRange 8) LayoutAcc.init acc
          hf hnw rfl i (List.mem_finRange i) j (List.mem_finRange j) hci hcj)



/-- The layout `ten7State` produces. -/
def ten7desc : VertexBufferLayout :=
  { fields := { position := some ⟨.f32, 3, 12⟩, normal := none,
                color := some ⟨.f32, 3, 0⟩, texCoord := none, texIndex := none }
    stride := 24 }

def ten7slots : List VertexBufferSlot :=
  [ { array := { enabled := true, vertexCount := 7, dataType := .f32
                 elementCount := 3, data := some (List.replicate 84 9) }
      arrayType := .color, dataType := .f32, bufferOffset := 0 },
    { array := { enabled := true, vertexCount := 10, dataType := .f32
                 elementCount := 3, data := some (List.replicate 120 7) }
      arrayType := .vertex, dataType := .f32, bufferOffset := 12 } ]

def ten7logs : List LogMsg := [.warnLengthMismatch "pos" 10 7 "pruned this array"]

set_option maxRecDepth 100000 in
/-- C6 witness: the amended statement applied at the P8 scenario — the
packed count 7 bounds the color array's count, and a length-mismatch
warning is logged. -/
theorem mcvk_C6_witness :
    7 ≤ (ten7State.clientArrays 0).vertexCount ∧
    (∃ a b c op, LogMsg.warnLengthMismatch a b c op ∈ ten7logs) := by
  have h := mcvk_C6.1 ten7State ten7desc ten7slots 7 ten7logs rfl
  exact ⟨h.2.1 0 rfl, h.2.2 0 7 rfl rfl (by decide)⟩

/-- An enabled texcoord array (3 vertices, skipped from the layout since
GL_TEXTURE_2D is disabled) next to an enabled position array (10
vertices). -/
def cornerState : RenderInsnAssembler :=
  { RenderInsnAssembler.new with clientArrays := fun i =>
      if i.val = 6 then
        { enabled := true, vertexCount := 3, dataType := .f32
          elementCount := 2, data := some (List.replicate 24 0) }
      else if i.val = 7 then
        { enabled := true, vertexCount := 10, dataType := .f32
          elementCount := 3, data := some (List.replicate 120 7) }
      else ClientArray.new }

set_option maxRecDepth 100000 in
/-- C6 counterexample: the claim says a draw packs exactly the minimum
vertex count across the INCLUDED arrays.  With an enabled 3-vertex
texcoord array (skipped from the layout because GL_TEXTURE_2D is off) and
an enabled 10-vertex position array, the only included array has 10
vertices, yet the layout packs 3 — the skipped texcoord array still
participated in the count reconciliation, which runs before the texcoord
gating. -/
theorem mcvk_C6_counterexample :
    (cornerState.getVertexBufferLayout).map
        (fun r => (r.2.2.1, r.2.1.map fun sl => sl.array.vertexCount)) =
      some (3, [10]) ∧
    (3 : Nat) ≠ 10 := ⟨rfl, by decide⟩

end MCVK
